import Mathlib

/-!
# Verification of the smalldds DDS loader and its companion block flipper

This file gives a shallow embedding, in Lean 4, of the DDS-decoding pipeline of
the `smalldds` single-header library (header parsing/validation, format
deduction, channel/bit-layout calculation, and mip/array image layout) and of
the vertical block-flip transform for BC1..BC5 compressed data found in the
companion `tinyddsloader.h` header.

Machine integers are modelled as `Nat`; wherever the C++ source performs 32-bit
unsigned arithmetic that can wrap, the embedding reduces modulo `2^32`
explicitly (constant `u32`).  `Result` keeps only the rolled-up severity
(`Success < Info < Warning < Error` as `0 < 1 < 2 < 3`): the C++ `Result` also
accumulates a message string, which no theorem below inspects.  Loops with
`break` are modelled as fuelled structural recursions whose fuel bounds the
remaining iteration count of the corresponding `for` loop.
-/

namespace Smalldds

/-- 2^32, the modulus of `uint32_t` arithmetic. -/
def u32 : Nat := 4294967296

/-- Severity levels of `smalldds::Result::Type`:
Success = 0, Info = 1, Warning = 2, Error = 3. -/
def sevSuccess : Nat := 0

/-- Info severity. -/
def sevInfo : Nat := 1

/-- Warning severity. -/
def sevWarning : Nat := 2

/-- Error severity. -/
def sevError : Nat := 3

/-- `smalldds::Result`, reduced to its rolled-up severity.
`add_message` performs `type = std::max(type, t)`. -/
structure Result where
  type : Nat
  deriving Repr, DecidableEq

/-- `Result::add_message`: keep the maximum severity seen so far. -/
def Result.add (r : Result) (t : Nat) : Result := ⟨max r.type t⟩

/-- First loop of `DDSFile::calc_shifts`: starting from bit `i`, scan at most
`fuel` bits of `mask` from the low end looking for a set bit; return the index
where the loop stopped together with the mask as shifted so far. -/
def firstSetFrom (mask : Nat) (fuel : Nat) (i : Nat) : Nat × Nat :=
  match fuel with
  | 0 => (i, mask)
  | fuel + 1 => if mask % 2 = 1 then (i, mask) else firstSetFrom (mask / 2) fuel (i + 1)

/-- Second loop of `DDSFile::calc_shifts`: count (at most `fuel`) consecutive
set bits of `mask` from the low end, with `i` the running count. -/
def countOnes (mask : Nat) (fuel : Nat) (i : Nat) : Nat :=
  match fuel with
  | 0 => i
  | fuel + 1 => if mask % 2 = 1 then countOnes (mask / 2) fuel (i + 1) else i

/-- `DDSFile::calc_shifts(mask, count, right)`: for a zero mask both outputs are
zero; otherwise `right` is where the first 32-iteration scan finds a set bit and
`count` is the number of consecutive set bits counted (capped at 32) from there.
Returns `(count, right)`. -/
def calc_shifts (mask : Nat) : Nat × Nat :=
  if mask = 0 then (0, 0)
  else
    let fs := firstSetFrom mask 32 0
    (countOnes fs.2 32 0, fs.1)

end Smalldds

namespace Smalldds

/-! ## Constants: four-character codes, legacy D3D format numbers, DXGI formats -/

/-- `MakeFourCC(ch0, ch1, ch2, ch3)`: little-endian packing of four bytes. -/
def makeFourCC (c0 c1 c2 c3 : Nat) : Nat :=
  c0 + 256 * c1 + 65536 * c2 + 16777216 * c3

def FOURCC_DXT1 : Nat := makeFourCC 68 88 84 49
def FOURCC_DXT2 : Nat := makeFourCC 68 88 84 50
def FOURCC_DXT3 : Nat := makeFourCC 68 88 84 51
def FOURCC_DXT4 : Nat := makeFourCC 68 88 84 52
def FOURCC_DXT5 : Nat := makeFourCC 68 88 84 53
def FOURCC_RXGB : Nat := makeFourCC 82 88 71 66
def FOURCC_ATI1 : Nat := makeFourCC 65 84 73 49
def FOURCC_ATI2 : Nat := makeFourCC 65 84 73 50
def FOURCC_BC4U : Nat := makeFourCC 66 67 52 85
def FOURCC_BC4S : Nat := makeFourCC 66 67 52 83
def FOURCC_BC5U : Nat := makeFourCC 66 67 53 85
def FOURCC_BC5S : Nat := makeFourCC 66 67 53 83
def FOURCC_BC6H : Nat := makeFourCC 66 67 54 72
def FOURCC_DX10 : Nat := makeFourCC 68 88 49 48
def FOURCC_RGBG : Nat := makeFourCC 82 71 66 71
def FOURCC_GRGB : Nat := makeFourCC 71 82 71 66
def FOURCC_YUY2 : Nat := makeFourCC 89 85 89 50
def FOURCC_UYVY : Nat := makeFourCC 85 89 86 89
def FOURCC_BC7L : Nat := makeFourCC 66 67 55 76
def FOURCC_BC70 : Nat := makeFourCC 66 67 55 0
def FOURCC_A2XY : Nat := makeFourCC 65 50 88 89
def FOURCC_A2D5 : Nat := makeFourCC 65 50 68 53
def FOURCC_ZOLA : Nat := makeFourCC 90 79 76 65
def FOURCC_CTX1 : Nat := makeFourCC 67 84 88 49
def FOURCC_ASTC4x4 : Nat := makeFourCC 65 83 52 52
def FOURCC_ASTC5x4 : Nat := makeFourCC 65 83 53 52
def FOURCC_ASTC5x5 : Nat := makeFourCC 65 83 53 53
def FOURCC_ASTC6x5 : Nat := makeFourCC 65 83 54 53
def FOURCC_ASTC6x6 : Nat := makeFourCC 65 83 54 54
def FOURCC_ASTC8x5 : Nat := makeFourCC 65 83 56 53
def FOURCC_ASTC8x6 : Nat := makeFourCC 65 83 56 54
def FOURCC_ASTC8x8 : Nat := makeFourCC 65 83 56 56
def FOURCC_ASTC10x5 : Nat := makeFourCC 65 83 65 53
def FOURCC_ASTC10x6 : Nat := makeFourCC 65 83 65 54
def FOURCC_ASTC10x8 : Nat := makeFourCC 65 83 65 56
def FOURCC_ASTC10x10 : Nat := makeFourCC 65 83 65 65
def FOURCC_ASTC12x10 : Nat := makeFourCC 65 83 67 65
def FOURCC_ASTC12x12 : Nat := makeFourCC 65 83 67 67
def FOURCC_ASTC10x5_ALT : Nat := makeFourCC 65 83 58 53
def FOURCC_ASTC10x6_ALT : Nat := makeFourCC 65 83 58 54
def FOURCC_ASTC10x8_ALT : Nat := makeFourCC 65 83 58 56
def FOURCC_ASTC10x10_ALT : Nat := makeFourCC 65 83 58 58
def FOURCC_ASTC12x10_ALT : Nat := makeFourCC 65 83 60 58
def FOURCC_ASTC12x12_ALT : Nat := makeFourCC 65 83 60 60

def D3DFMT_R8G8B8 : Nat := 20
def D3DFMT_A8R8G8B8 : Nat := 21
def D3DFMT_X8R8G8B8 : Nat := 22
def D3DFMT_R5G6B5 : Nat := 23
def D3DFMT_X1R5G5B5 : Nat := 24
def D3DFMT_A1R5G5B5 : Nat := 25
def D3DFMT_A4R4G4B4 : Nat := 26
def D3DFMT_R3G3B2 : Nat := 27
def D3DFMT_A8 : Nat := 28
def D3DFMT_A8R3G3B2 : Nat := 29
def D3DFMT_X4R4G4B4 : Nat := 30
def D3DFMT_A2B10G10R10 : Nat := 31
def D3DFMT_A8B8G8R8 : Nat := 32
def D3DFMT_X8B8G8R8 : Nat := 33
def D3DFMT_G16R16 : Nat := 34
def D3DFMT_A2R10G10B10 : Nat := 35
def D3DFMT_A16B16G16R16 : Nat := 36
def D3DFMT_A8P8 : Nat := 40
def D3DFMT_P8 : Nat := 41
def D3DFMT_L8 : Nat := 50
def D3DFMT_A8L8 : Nat := 51
def D3DFMT_A4L4 : Nat := 52
def D3DFMT_V8U8 : Nat := 60
def D3DFMT_L6V5U5 : Nat := 61
def D3DFMT_X8L8V8U8 : Nat := 62
def D3DFMT_Q8W8V8U8 : Nat := 63
def D3DFMT_V16U16 : Nat := 64
def D3DFMT_A2W10V10U10 : Nat := 67
def D3DFMT_D16_LOCKABLE : Nat := 70
def D3DFMT_D32 : Nat := 71
def D3DFMT_D24S8 : Nat := 75
def D3DFMT_D24X8 : Nat := 77
def D3DFMT_D24X4S4 : Nat := 79
def D3DFMT_D16 : Nat := 80
def D3DFMT_L16 : Nat := 81
def D3DFMT_D32F_LOCKABLE : Nat := 82
def D3DFMT_S8_LOCKABLE : Nat := 85
def D3DFMT_Q16W16V16U16 : Nat := 110
def D3DFMT_R16F : Nat := 111
def D3DFMT_G16R16F : Nat := 112
def D3DFMT_A16B16G16R16F : Nat := 113
def D3DFMT_R32F : Nat := 114
def D3DFMT_G32R32F : Nat := 115
def D3DFMT_A32B32G32R32F : Nat := 116
def D3DFMT_CxV8U8 : Nat := 117
def D3DFMT_A2B10G10R10_XR_BIAS : Nat := 119

/-! DXGI format identifiers (numeric values of the `DXGIFormat` enum). -/

def Format_Unknown : Nat := 0
def R32G32B32A32_Typeless : Nat := 1
def R32G32B32A32_Float : Nat := 2
def R32G32B32A32_UInt : Nat := 3
def R32G32B32A32_SInt : Nat := 4
def R32G32B32_Typeless : Nat := 5
def R32G32B32_Float : Nat := 6
def R32G32B32_UInt : Nat := 7
def R32G32B32_SInt : Nat := 8
def R16G16B16A16_Typeless : Nat := 9
def R16G16B16A16_Float : Nat := 10
def R16G16B16A16_UNorm : Nat := 11
def R16G16B16A16_UInt : Nat := 12
def R16G16B16A16_SNorm : Nat := 13
def R16G16B16A16_SInt : Nat := 14
def R32G32_Typeless : Nat := 15
def R32G32_Float : Nat := 16
def R32G32_UInt : Nat := 17
def R32G32_SInt : Nat := 18
def R32G8X24_Typeless : Nat := 19
def D32_Float_S8X24_UInt : Nat := 20
def R32_Float_X8X24_Typeless : Nat := 21
def X32_Typeless_G8X24_UInt : Nat := 22
def R10G10B10A2_Typeless : Nat := 23
def R10G10B10A2_UNorm : Nat := 24
def R10G10B10A2_UInt : Nat := 25
def R11G11B10_Float : Nat := 26
def R8G8B8A8_Typeless : Nat := 27
def R8G8B8A8_UNorm : Nat := 28
def R8G8B8A8_UNorm_SRGB : Nat := 29
def R8G8B8A8_UInt : Nat := 30
def R8G8B8A8_SNorm : Nat := 31
def R8G8B8A8_SInt : Nat := 32
def R16G16_Typeless : Nat := 33
def R16G16_Float : Nat := 34
def R16G16_UNorm : Nat := 35
def R16G16_UInt : Nat := 36
def R16G16_SNorm : Nat := 37
def R16G16_SInt : Nat := 38
def R32_Typeless : Nat := 39
def D32_Float : Nat := 40
def R32_Float : Nat := 41
def R32_UInt : Nat := 42
def R32_SInt : Nat := 43
def R24G8_Typeless : Nat := 44
def D24_UNorm_S8_UInt : Nat := 45
def R24_UNorm_X8_Typeless : Nat := 46
def X24_Typeless_G8_UInt : Nat := 47
def R8G8_Typeless : Nat := 48
def R8G8_UNorm : Nat := 49
def R8G8_UInt : Nat := 50
def R8G8_SNorm : Nat := 51
def R8G8_SInt : Nat := 52
def R16_Typeless : Nat := 53
def R16_Float : Nat := 54
def D16_UNorm : Nat := 55
def R16_UNorm : Nat := 56
def R16_UInt : Nat := 57
def R16_SNorm : Nat := 58
def R16_SInt : Nat := 59
def R8_Typeless : Nat := 60
def R8_UNorm : Nat := 61
def R8_UInt : Nat := 62
def R8_SNorm : Nat := 63
def R8_SInt : Nat := 64
def A8_UNorm : Nat := 65
def R1_UNorm : Nat := 66
def R9G9B9E5_SHAREDEXP : Nat := 67
def R8G8_B8G8_UNorm : Nat := 68
def G8R8_G8B8_UNorm : Nat := 69
def BC1_Typeless : Nat := 70
def BC1_UNorm : Nat := 71
def BC1_UNorm_SRGB : Nat := 72
def BC2_Typeless : Nat := 73
def BC2_UNorm : Nat := 74
def BC2_UNorm_SRGB : Nat := 75
def BC3_Typeless : Nat := 76
def BC3_UNorm : Nat := 77
def BC3_UNorm_SRGB : Nat := 78
def BC4_Typeless : Nat := 79
def BC4_UNorm : Nat := 80
def BC4_SNorm : Nat := 81
def BC5_Typeless : Nat := 82
def BC5_UNorm : Nat := 83
def BC5_SNorm : Nat := 84
def B5G6R5_UNorm : Nat := 85
def B5G5R5A1_UNorm : Nat := 86
def B8G8R8A8_UNorm : Nat := 87
def B8G8R8X8_UNorm : Nat := 88
def R10G10B10_XR_BIAS_A2_UNorm : Nat := 89
def B8G8R8A8_Typeless : Nat := 90
def B8G8R8A8_UNorm_SRGB : Nat := 91
def B8G8R8X8_Typeless : Nat := 92
def B8G8R8X8_UNorm_SRGB : Nat := 93
def BC6H_Typeless : Nat := 94
def BC6H_UF16 : Nat := 95
def BC6H_SF16 : Nat := 96
def BC7_Typeless : Nat := 97
def BC7_UNorm : Nat := 98
def BC7_UNorm_SRGB : Nat := 99
def AYUV : Nat := 100
def Y410 : Nat := 101
def Y416 : Nat := 102
def NV12 : Nat := 103
def P010 : Nat := 104
def P016 : Nat := 105
def YUV420_OPAQUE : Nat := 106
def YUY2 : Nat := 107
def Y210 : Nat := 108
def Y216 : Nat := 109
def NV11 : Nat := 110
def AI44 : Nat := 111
def IA44 : Nat := 112
def P8 : Nat := 113
def A8P8 : Nat := 114
def B4G4R4A4_UNorm : Nat := 115
def P208 : Nat := 130
def V208 : Nat := 131
def V408 : Nat := 132
def ASTC_4X4_Typeless : Nat := 133
def ASTC_4X4_UNorm : Nat := 134
def ASTC_4X4_UNorm_SRGB : Nat := 135
def ASTC_5X4_Typeless : Nat := 137
def ASTC_5X4_UNorm : Nat := 138
def ASTC_5X4_UNorm_SRGB : Nat := 139
def ASTC_5X5_Typeless : Nat := 141
def ASTC_5X5_UNorm : Nat := 142
def ASTC_5X5_UNorm_SRGB : Nat := 143
def ASTC_6X5_Typeless : Nat := 145
def ASTC_6X5_UNorm : Nat := 146
def ASTC_6X5_UNorm_SRGB : Nat := 147
def ASTC_6X6_Typeless : Nat := 149
def ASTC_6X6_UNorm : Nat := 150
def ASTC_6X6_UNorm_SRGB : Nat := 151
def ASTC_8X5_Typeless : Nat := 153
def ASTC_8X5_UNorm : Nat := 154
def ASTC_8X5_UNorm_SRGB : Nat := 155
def ASTC_8X6_Typeless : Nat := 157
def ASTC_8X6_UNorm : Nat := 158
def ASTC_8X6_UNorm_SRGB : Nat := 159
def ASTC_8X8_Typeless : Nat := 161
def ASTC_8X8_UNorm : Nat := 162
def ASTC_8X8_UNorm_SRGB : Nat := 163
def ASTC_10X5_Typeless : Nat := 165
def ASTC_10X5_UNorm : Nat := 166
def ASTC_10X5_UNorm_SRGB : Nat := 167
def ASTC_10X6_Typeless : Nat := 169
def ASTC_10X6_UNorm : Nat := 170
def ASTC_10X6_UNorm_SRGB : Nat := 171
def ASTC_10X8_Typeless : Nat := 173
def ASTC_10X8_UNorm : Nat := 174
def ASTC_10X8_UNorm_SRGB : Nat := 175
def ASTC_10X10_Typeless : Nat := 177
def ASTC_10X10_UNorm : Nat := 178
def ASTC_10X10_UNorm_SRGB : Nat := 179
def ASTC_12X10_Typeless : Nat := 181
def ASTC_12X10_UNorm : Nat := 182
def ASTC_12X10_UNorm_SRGB : Nat := 183
def ASTC_12X12_Typeless : Nat := 185
def ASTC_12X12_UNorm : Nat := 186
def ASTC_12X12_UNorm_SRGB : Nat := 187
def A4B4G4R4_UNorm : Nat := 191

/-! Pixel-format flag bits (`PixelFormatFlagBits`), header flag bits and caps2
bits, modelled by their bit positions/values. -/

def flagAlphaPixels : Nat := 0x00000001
def flagAlphaOnly : Nat := 0x00000002
def flagFourCC : Nat := 0x00000004
def flagRGB : Nat := 0x00000040
def flagYUV : Nat := 0x00000200
def flagAlphaPreMult : Nat := 0x00008000
def flagLuminance : Nat := 0x00020000
def flagBumpDuDv : Nat := 0x00080000
def flagSRGB : Nat := 0x40000000
def flagNormal : Nat := 0x80000000

def headerFlagHeight : Nat := 0x00000002
def headerFlagDepth : Nat := 0x00800000

def cubemapAllFaces : Nat :=
  0x00000600 ||| 0x00000a00 ||| 0x00001200 ||| 0x00002200 ||| 0x00004200 ||| 0x00008200

/-- Alpha modes (miscFlags2 enumeration). -/
def ALPHA_MODE_UNKNOWN : Nat := 0
def ALPHA_MODE_PREMULTIPLIED : Nat := 2

/-- `DDSFile::TextureDimension` numeric values. -/
def Texture1D : Nat := 2
def Texture2D : Nat := 3
def Texture3D : Nat := 4

/-- `DXT10MiscFlagBits::TextureCube`. -/
def miscTextureCube : Nat := 4

/-! ## Data model -/

/-- `DDSFile::ColorTransform`. -/
inductive ColorTransform where
  | eNone
  | eLuminance
  | eAGBR
  | eYUV
  | eYCoCg
  | eYCoCgScaled
  | eAEXP
  | eSwapRG
  | eSwapRB
  | eOrthographicNormal
  deriving Repr, DecidableEq

/-- `DDSFile::Compression`. -/
inductive Compression where
  | None
  | BC1_DXT1
  | BC2_DXT2
  | BC2_DXT3
  | BC3_DXT4
  | BC3_DXT5
  | BC4
  | BC5
  | BC6HU
  | BC6HS
  | BC7
  | ASTC
  deriving Repr, DecidableEq

/-- `DDSFile::PixelFormat` (the 32-byte embedded record). The four channel
masks `masks[0..3]` are the r,g,b,a slots. -/
structure PixelFormat where
  size : Nat
  flags : Nat
  fourCC : Nat
  bit_count : Nat
  mask0 : Nat
  mask1 : Nat
  mask2 : Nat
  mask3 : Nat
  deriving Repr, DecidableEq

/-- `DDSFile::Header` (the 124-byte main header; the 11 reserved words and
caps3/caps4/reserved2 are never read and are omitted). -/
structure Header where
  size : Nat
  flags : Nat
  height : Nat
  width : Nat
  pitch_or_linear_size : Nat
  depth : Nat
  mipmap_count : Nat
  pixel_format : PixelFormat
  caps1 : Nat
  caps2 : Nat
  deriving Repr, DecidableEq

/-- `DDSFile::HeaderDXT10` (the optional 20-byte extended header). -/
structure HeaderDXT10 where
  format : Nat
  resource_dimension : Nat
  misc_flag : Nat
  array_size : Nat
  misc_flag2 : Nat
  deriving Repr, DecidableEq

/-- One entry of `DDSFile::image_data`: dimensions of the (slice, level) image
plus its byte span into the retained buffer, modelled as offset + length. -/
structure ImageDataM where
  width : Nat
  height : Nat
  depth : Nat
  offset : Nat
  size : Nat
  deriving Repr, DecidableEq

/-- The mutable state of a `DDSFile` object: the retained byte buffer plus all
header/derived fields that `load`, `verify_header`, `calc_channel_info` and
`populate_image_data` read or write. -/
structure DDSState where
  dds : List Nat
  header : Header
  has_DXT10_header : Bool
  header_DXT10 : HeaderDXT10
  is_cubemap : Bool
  compression : Compression
  bpp : Nat
  num_channels : Nat
  alpha_mode : Nat
  color_transform : ColorTransform
  bitmasked : Bool
  bitmask_has_alpha : Bool
  bitmask_has_rgb : Bool
  bitmask_was_bump_du_dv : Bool
  bit_counts0 : Nat
  bit_counts1 : Nat
  bit_counts2 : Nat
  bit_counts3 : Nat
  right_shifts0 : Nat
  right_shifts1 : Nat
  right_shifts2 : Nat
  right_shifts3 : Nat
  header_verified : Bool
  deriving Repr, DecidableEq

/-! ## Byte-level parsing (the `memcpy`s of `load`/`verify_header`)

The retained file is a list of bytes.  `readU32 dds off` is the little-endian
32-bit word at byte offset `off`, exactly what the `memcpy` into the packed
header structs yields on the (little-endian) targets the loader assumes. -/

def readU32 (dds : List Nat) (off : Nat) : Nat :=
  dds.getD off 0 + 256 * dds.getD (off + 1) 0 + 65536 * dds.getD (off + 2) 0 +
    16777216 * dds.getD (off + 3) 0

/-- The `PixelFormat` record embedded at byte offset 76 of the file
(offset 72 within the 124-byte header that starts at offset 4). -/
def parsePixelFormat (dds : List Nat) : PixelFormat where
  size := readU32 dds 76
  flags := readU32 dds 80
  fourCC := readU32 dds 84
  bit_count := readU32 dds 88
  mask0 := readU32 dds 92
  mask1 := readU32 dds 96
  mask2 := readU32 dds 100
  mask3 := readU32 dds 104

/-- The 124-byte `Header` copied from byte offset 4. -/
def parseHeader (dds : List Nat) : Header where
  size := readU32 dds 4
  flags := readU32 dds 8
  height := readU32 dds 12
  width := readU32 dds 16
  pitch_or_linear_size := readU32 dds 20
  depth := readU32 dds 24
  mipmap_count := readU32 dds 28
  pixel_format := parsePixelFormat dds
  caps1 := readU32 dds 108
  caps2 := readU32 dds 112

/-- The 20-byte `HeaderDXT10` copied from byte offset 128. -/
def parseHeaderDXT10 (dds : List Nat) : HeaderDXT10 where
  format := readU32 dds 128
  resource_dimension := readU32 dds 132
  misc_flag := readU32 dds 136
  array_size := readU32 dds 140
  misc_flag2 := readU32 dds 144

/-- Default-constructed `HeaderDXT10` (member initializers of the struct). -/
def defaultHeaderDXT10 : HeaderDXT10 :=
  ⟨Format_Unknown, 0, 0, 1, 0⟩

/-- The state of a fresh `DDSFile` right after `load` has copied the main
header out of the buffer (member default initializers for everything else;
`is_cubemap` is uninitialized in C++ and is only ever written before being
read, so `false` here is immaterial). -/
def initState (dds : List Nat) : DDSState where
  dds := dds
  header := parseHeader dds
  has_DXT10_header := false
  header_DXT10 := defaultHeaderDXT10
  is_cubemap := false
  compression := Compression.None
  bpp := 0
  num_channels := 0
  alpha_mode := ALPHA_MODE_UNKNOWN
  color_transform := ColorTransform.eNone
  bitmasked := false
  bitmask_has_alpha := false
  bitmask_has_rgb := false
  bitmask_was_bump_du_dv := false
  bit_counts0 := 0
  bit_counts1 := 0
  bit_counts2 := 0
  bit_counts3 := 0
  right_shifts0 := 0
  right_shifts1 := 0
  right_shifts2 := 0
  right_shifts3 := 0
  header_verified := false

/-! ## Format tables (`is_compressed`, bits per pixel, channel count) -/

/-- `DDSFile::is_compressed`. -/
def is_compressed (fmt : Nat) : Bool :=
  if (BC1_Typeless ≤ fmt ∧ fmt ≤ BC7_UNorm_SRGB) ∨
     (ASTC_4X4_Typeless ≤ fmt ∧ fmt ≤ ASTC_12X12_UNorm_SRGB) then true else false

/-- The bits-per-pixel switch of `calc_channel_info` for a known, non-bitmasked
format.  `none` is the `default:` arm (unsupported format: Warning, bpp 0). -/
def bitsPerPixelTable (fmt : Nat) : Option Nat :=
  if fmt ∈ [R32G32B32A32_Typeless, R32G32B32A32_Float, R32G32B32A32_UInt,
            R32G32B32A32_SInt] then some 128
  else if fmt ∈ [R32G32B32_Typeless, R32G32B32_Float, R32G32B32_UInt,
                 R32G32B32_SInt] then some 96
  else if fmt ∈ [R16G16B16A16_Typeless, R16G16B16A16_Float, R16G16B16A16_UNorm,
                 R16G16B16A16_UInt, R16G16B16A16_SNorm, R16G16B16A16_SInt,
                 R32G32_Typeless, R32G32_Float, R32G32_UInt, R32G32_SInt,
                 R32G8X24_Typeless, D32_Float_S8X24_UInt, R32_Float_X8X24_Typeless,
                 X32_Typeless_G8X24_UInt, Y416, Y210, Y216] then some 64
  else if fmt ∈ [R10G10B10A2_Typeless, R10G10B10A2_UNorm, R10G10B10A2_UInt,
                 R11G11B10_Float, R8G8B8A8_Typeless, R8G8B8A8_UNorm,
                 R8G8B8A8_UNorm_SRGB, R8G8B8A8_UInt, R8G8B8A8_SNorm, R8G8B8A8_SInt,
                 R16G16_Typeless, R16G16_Float, R16G16_UNorm, R16G16_UInt,
                 R16G16_SNorm, R16G16_SInt, R32_Typeless, D32_Float, R32_Float,
                 R32_UInt, R32_SInt, R24G8_Typeless, D24_UNorm_S8_UInt,
                 R24_UNorm_X8_Typeless, X24_Typeless_G8_UInt, R9G9B9E5_SHAREDEXP,
                 R8G8_B8G8_UNorm, G8R8_G8B8_UNorm, B8G8R8A8_UNorm,
                 R10G10B10_XR_BIAS_A2_UNorm, B8G8R8A8_Typeless, B8G8R8A8_UNorm_SRGB,
                 B8G8R8X8_Typeless, B8G8R8X8_UNorm, B8G8R8X8_UNorm_SRGB,
                 AYUV, Y410, YUY2] then some 32
  else if fmt ∈ [P010, P016] then some 24
  else if fmt ∈ [R8G8_Typeless, R8G8_UNorm, R8G8_UInt, R8G8_SNorm, R8G8_SInt,
                 R16_Typeless, R16_Float, D16_UNorm, R16_UNorm, R16_UInt,
                 R16_SNorm, R16_SInt, B5G6R5_UNorm, B5G5R5A1_UNorm,
                 B4G4R4A4_UNorm, A4B4G4R4_UNorm, A8P8] then some 16
  else if fmt ∈ [NV12, YUV420_OPAQUE, NV11] then some 12
  else if fmt ∈ [R8_Typeless, R8_UNorm, R8_UInt, R8_SNorm, R8_SInt, A8_UNorm,
                 AI44, IA44, P8] then some 8
  else if fmt ∈ [BC2_Typeless, BC2_UNorm, BC2_UNorm_SRGB, BC3_Typeless, BC3_UNorm,
                 BC3_UNorm_SRGB, BC5_Typeless, BC5_UNorm, BC5_SNorm, BC6H_Typeless,
                 BC6H_UF16, BC6H_SF16, BC7_Typeless, BC7_UNorm, BC7_UNorm_SRGB]
    then some 8
  else if fmt ∈ [BC1_Typeless, BC1_UNorm, BC1_UNorm_SRGB, BC4_Typeless, BC4_UNorm,
                 BC4_SNorm] then some 4
  else if fmt = R1_UNorm then some 1
  else if (ASTC_4X4_Typeless ≤ fmt ∧ fmt ≤ ASTC_12X12_UNorm_SRGB) ∧
          fmt ∉ [136, 140, 144, 148, 152, 156, 160, 164, 168, 172, 176, 180, 184]
    then some 128
  else none

/-- The channel-count switch of `calc_channel_info` for a known format.
`is_normal` is the Normal flag, and the BC3/BC5 families depend on it and on
the active color transform exactly as in the source; the `default:` arm
yields 0. -/
def numChannelsTable (fmt : Nat) (is_normal : Bool) (ct : ColorTransform) : Nat :=
  if fmt ∈ [BC1_UNorm, BC1_UNorm_SRGB, BC2_UNorm, BC2_UNorm_SRGB, BC7_UNorm,
            BC7_UNorm_SRGB, R32G32B32A32_Float, R16G16B16A16_Float,
            R32G32B32A32_UInt, R16G16B16A16_UInt, R8G8B8A8_UInt,
            R32G32B32A32_SInt, R16G16B16A16_SInt, R8G8B8A8_SInt,
            R16G16B16A16_SNorm, R8G8B8A8_SNorm, B5G5R5A1_UNorm,
            R16G16B16A16_UNorm, R8G8B8A8_UNorm, R8G8B8A8_UNorm_SRGB,
            B8G8R8A8_UNorm, B8G8R8A8_UNorm_SRGB, R10G10B10A2_Typeless,
            R10G10B10A2_UNorm, R10G10B10A2_UInt, B4G4R4A4_UNorm, A4B4G4R4_UNorm,
            R10G10B10_XR_BIAS_A2_UNorm] ∨
     ((ASTC_4X4_Typeless ≤ fmt ∧ fmt ≤ ASTC_12X12_UNorm_SRGB) ∧
      fmt ∉ [136, 140, 144, 148, 152, 156, 160, 164, 168, 172, 176, 180, 184])
    then 4
  else if fmt ∈ [BC3_UNorm, BC3_UNorm_SRGB] then
    if is_normal ∨ ct = ColorTransform.eAGBR then 3 else 4
  else if fmt ∈ [R32G32B32_Float, R32G32B32_UInt, R32G32B32_SInt, BC6H_UF16,
                 BC6H_SF16, R11G11B10_Float, Format_Unknown, B5G6R5_UNorm,
                 B8G8R8X8_Typeless, B8G8R8X8_UNorm, B8G8R8X8_UNorm_SRGB,
                 R9G9B9E5_SHAREDEXP] then 3
  else if fmt ∈ [R32G32_Float, R32G32_UInt, R32G32_SInt, R16G16_Float, R16G16_UInt,
                 R8G8_UInt, R16G16_SInt, R8G8_SInt, R16G16_SNorm, R8G8_SNorm,
                 R16G16_UNorm, R8G8_UNorm] then 2
  else if fmt ∈ [BC5_UNorm, BC5_SNorm] then (if is_normal then 3 else 2)
  else if fmt ∈ [R32_Float, D32_Float, R32_UInt, R16_Float, R16_UInt, R8_UInt,
                 R32_SInt, R16_SInt, R8_SInt, R16_SNorm, R8_SNorm, R16_UNorm,
                 D16_UNorm, A8_UNorm, R8_UNorm, BC4_UNorm, BC4_SNorm, R1_UNorm]
    then 1
  else 0

/-- `std::numeric_limits<size_t>::max()` on the 64-bit targets assumed. -/
def sizeTMax : Nat := 18446744073709551615

/-- `DDSFile::calc_channel_info(Result&)`.  Selects the bits-per-pixel source
(table / explicit bit count / implied by pitch), then the channel count, then
fills the per-channel (bit-width, shift) pairs from the masks.

Note two literal quirks preserved from the source: in both the oversized
`bit_count` branch and the non-divisible-pitch branch, the statement `bpp = 0;`
that accompanies the warning is immediately overwritten by the unconditional
assignment that follows it (`bpp = bit_count` resp.
`bpp = pitch_or_linear_size / width`), so the warning does not actually zero
`bpp`. -/
def calc_channel_info (s : DDSState) (res : Result) : DDSState × Result :=
  let fmt := s.header_DXT10.format
  let bppRes : Nat × Result :=
    if s.bitmasked = false ∧ fmt ≠ 0 then
      match bitsPerPixelTable fmt with
      | some b => (b, res)
      | none => (0, res.add sevWarning)
    else if s.header.pixel_format.bit_count ≠ 0 then
      if s.header.pixel_format.bit_count > sizeTMax - 7 then
        (s.header.pixel_format.bit_count, res.add sevWarning)
      else
        (s.header.pixel_format.bit_count, res)
    else
      if s.header.pitch_or_linear_size % s.header.width ≠ 0 then
        (s.header.pitch_or_linear_size / s.header.width, res.add sevWarning)
      else
        (s.header.pitch_or_linear_size / s.header.width, res)
  let bpp := bppRes.1
  let res := bppRes.2
  let is_normal : Bool := s.header.pixel_format.flags &&& flagNormal ≠ 0
  let num_channels :=
    if fmt ≠ Format_Unknown then numChannelsTable fmt is_normal s.color_transform
    else
      (if s.header.pixel_format.mask0 ≠ 0 then 1 else 0) +
      (if s.header.pixel_format.mask1 ≠ 0 then 1 else 0) +
      (if s.header.pixel_format.mask2 ≠ 0 then 1 else 0) +
      (if s.header.pixel_format.mask3 ≠ 0 then 1 else 0)
  ({ s with
      bpp := bpp
      num_channels := num_channels
      bit_counts0 := (calc_shifts s.header.pixel_format.mask0).1
      right_shifts0 := (calc_shifts s.header.pixel_format.mask0).2
      bit_counts1 := (calc_shifts s.header.pixel_format.mask1).1
      right_shifts1 := (calc_shifts s.header.pixel_format.mask1).2
      bit_counts2 := (calc_shifts s.header.pixel_format.mask2).1
      right_shifts2 := (calc_shifts s.header.pixel_format.mask2).2
      bit_counts3 := (calc_shifts s.header.pixel_format.mask3).1
      right_shifts3 := (calc_shifts s.header.pixel_format.mask3).2 },
   res)

/-! ## Format deduction -/

/-- `DDSFile::deduce_bitmasks_from_pixel_format()`. -/
def deduce_bitmasks_from_pixel_format (s : DDSState) : DDSState :=
  let pf := s.header.pixel_format
  let bump := pf.flags &&& flagBumpDuDv ≠ 0
  let s :=
    if bump then
      { s with bitmask_was_bump_du_dv := true, bitmask_has_rgb := true }
    else s
  { s with
      bitmask_has_alpha := pf.flags &&& (flagAlphaPixels ||| flagAlphaOnly) ≠ 0
      bitmask_has_rgb :=
        s.bitmask_has_rgb || (pf.flags &&& (flagYUV ||| flagLuminance ||| flagRGB) ≠ 0)
      bitmasked := true }

/-- Helper: rewrite `bit_count` and all four channel masks of the pixel format
in place (the repeated `header.pixel_format.…  = …` blocks of
`deduce_format_from_fourCC`). -/
def setPFMasks (s : DDSState) (bc m0 m1 m2 m3 : Nat) : DDSState :=
  { s with header := { s.header with pixel_format :=
      { s.header.pixel_format with
          bit_count := bc, mask0 := m0, mask1 := m1, mask2 := m2, mask3 := m3 } } }

/-- Helper: rewrite `bit_count` and the first three channel masks only (cases
such as `R11G11B10_Float` and `D3DFMT_L8` leave `masks[3]` untouched). -/
def setPFMasks3 (s : DDSState) (bc m0 m1 m2 : Nat) : DDSState :=
  { s with header := { s.header with pixel_format :=
      { s.header.pixel_format with
          bit_count := bc, mask0 := m0, mask1 := m1, mask2 := m2 } } }

/-- The inner `switch (header_DXT10.format)` of the `FOURCC_DX10` case: set the
compression kind for compressed formats, and write derived channel masks back
into the pixel format for the packed formats the extended header cannot
describe. -/
def dx10FormatFixup (s : DDSState) : DDSState :=
  let fmt := s.header_DXT10.format
  if fmt ∈ [BC1_UNorm, BC1_UNorm_SRGB] then { s with compression := Compression.BC1_DXT1 }
  else if fmt ∈ [BC2_UNorm, BC2_UNorm_SRGB] then { s with compression := Compression.BC2_DXT3 }
  else if fmt ∈ [BC3_UNorm, BC3_UNorm_SRGB] then { s with compression := Compression.BC3_DXT5 }
  else if fmt ∈ [BC4_UNorm, BC4_SNorm] then { s with compression := Compression.BC4 }
  else if fmt ∈ [BC5_UNorm, BC5_SNorm] then { s with compression := Compression.BC5 }
  else if fmt = BC6H_UF16 then { s with compression := Compression.BC6HU }
  else if fmt = BC6H_SF16 then { s with compression := Compression.BC6HS }
  else if fmt ∈ [BC7_UNorm, BC7_UNorm_SRGB] then { s with compression := Compression.BC7 }
  else if fmt ∈ [R10G10B10A2_Typeless, R10G10B10A2_UNorm, R10G10B10A2_UInt] then
    { setPFMasks s 32 0x3FF 0xFFC00 0x3FF00000 0xC0000000 with
        bitmasked := true, bitmask_has_rgb := true, bitmask_has_alpha := true }
  else if fmt = A4B4G4R4_UNorm then
    { setPFMasks s 16 0xf000 0x0f00 0x00f0 0x000f with
        bitmasked := true, bitmask_has_rgb := true, bitmask_has_alpha := true }
  else if fmt = B4G4R4A4_UNorm then
    { setPFMasks s 16 0x0f00 0x00f0 0x000f 0xff00 with
        bitmasked := true, bitmask_has_rgb := true, bitmask_has_alpha := true }
  else if fmt = B5G5R5A1_UNorm then
    { setPFMasks s 16 0x7C00 0x03E0 0x001F 0x8000 with
        bitmasked := true, bitmask_has_rgb := true, bitmask_has_alpha := true }
  else if fmt = B5G6R5_UNorm then
    { setPFMasks s 16 0xF800 0x07E0 0x001F 0x0000 with
        bitmasked := true, bitmask_has_rgb := true, bitmask_has_alpha := false }
  else if fmt = R11G11B10_Float then
    { setPFMasks3 s 32 0x000003FF 0x007FF000 0xFFC00000 with
        bitmasked := true, bitmask_has_rgb := true, bitmask_has_alpha := false }
  else if fmt = R10G10B10_XR_BIAS_A2_UNorm then
    { setPFMasks s 32 0x000003FF 0x000FFC00 0x3FF00000 0xC0000000 with
        bitmasked := true, bitmask_has_rgb := true, bitmask_has_alpha := true }
  else if fmt = R9G9B9E5_SHAREDEXP then
    { setPFMasks s 32 0x000001FF 0x0003FE00 0x07FC0000 0xF8000000 with
        bitmasked := true, bitmask_has_rgb := true, bitmask_has_alpha := false }
  else if ASTC_4X4_Typeless ≤ fmt ∧ fmt ≤ ASTC_12X12_UNorm_SRGB then
    { s with compression := Compression.ASTC }
  else s

/-- The big `switch (pf.fourCC)` dispatch of `deduce_format_from_fourCC`
(run when the FourCC flag is set); `c` is the four-character code, and the
fall-through default returns the stored extended-header format. -/
def deduceSwitch (s : DDSState) (res : Result) (c : Nat) : DDSState × Result × Nat :=
  if c = FOURCC_DXT1 then ({ s with compression := Compression.BC1_DXT1 }, res, BC1_UNorm)
  else if c = FOURCC_DXT2 then ({ s with compression := Compression.BC2_DXT2 }, res, BC2_UNorm)
  else if c = FOURCC_DXT3 then ({ s with compression := Compression.BC2_DXT3 }, res, BC2_UNorm)
  else if c = FOURCC_DXT4 then ({ s with compression := Compression.BC3_DXT4 }, res, BC3_UNorm)
  else if c = FOURCC_DXT5 then ({ s with compression := Compression.BC3_DXT5 }, res, BC3_UNorm)
  else if c = FOURCC_RXGB then
    ({ s with
         compression := Compression.BC3_DXT5
         color_transform := ColorTransform.eAGBR
         header := { s.header with pixel_format :=
           { s.header.pixel_format with
               flags := s.header.pixel_format.flags &&& 0x7FFFFFFF } } },
     res, BC3_UNorm)
  else if c = FOURCC_BC4U ∨ c = FOURCC_ATI1 then
    ({ s with compression := Compression.BC4 }, res, BC4_UNorm)
  else if c = FOURCC_BC4S then ({ s with compression := Compression.BC4 }, res, BC4_SNorm)
  else if c = FOURCC_BC5U then ({ s with compression := Compression.BC5 }, res, BC5_UNorm)
  else if c = FOURCC_ATI2 then
    -- ATI2 is BC5 with red and green swapped
    let ct := if s.color_transform = ColorTransform.eNone then ColorTransform.eSwapRG
              else if s.color_transform = ColorTransform.eSwapRG then ColorTransform.eNone
              else s.color_transform
    ({ s with color_transform := ct, compression := Compression.BC5 }, res, BC5_UNorm)
  else if c = FOURCC_BC5S then ({ s with compression := Compression.BC5 }, res, BC5_SNorm)
  else if c = FOURCC_BC6H then ({ s with compression := Compression.BC6HU }, res, BC6H_UF16)
  else if c = FOURCC_BC7L ∨ c = FOURCC_BC70 ∨ c = FOURCC_ZOLA then
    ({ s with compression := Compression.BC7 }, res, BC7_UNorm)
  else if c = FOURCC_RGBG then (s, res, R8G8_B8G8_UNorm)
  else if c = FOURCC_GRGB then (s, res, G8R8_G8B8_UNorm)
  else if c = FOURCC_YUY2 then (s, res, YUY2)
  else if c = FOURCC_UYVY then (s, res, R8G8_B8G8_UNorm)
  else if c = FOURCC_ASTC4x4 then ({ s with compression := Compression.ASTC }, res, ASTC_4X4_UNorm)
  else if c = FOURCC_ASTC5x4 then ({ s with compression := Compression.ASTC }, res, ASTC_5X4_UNorm)
  else if c = FOURCC_ASTC5x5 then ({ s with compression := Compression.ASTC }, res, ASTC_5X5_UNorm)
  else if c = FOURCC_ASTC6x5 then ({ s with compression := Compression.ASTC }, res, ASTC_6X5_UNorm)
  else if c = FOURCC_ASTC6x6 then ({ s with compression := Compression.ASTC }, res, ASTC_6X6_UNorm)
  else if c = FOURCC_ASTC8x5 then ({ s with compression := Compression.ASTC }, res, ASTC_8X5_UNorm)
  else if c = FOURCC_ASTC8x6 then ({ s with compression := Compression.ASTC }, res, ASTC_8X6_UNorm)
  else if c = FOURCC_ASTC8x8 then ({ s with compression := Compression.ASTC }, res, ASTC_8X8_UNorm)
  else if c = FOURCC_ASTC10x5 ∨ c = FOURCC_ASTC10x5_ALT then
    ({ s with compression := Compression.ASTC }, res, ASTC_10X5_UNorm)
  else if c = FOURCC_ASTC10x6 ∨ c = FOURCC_ASTC10x6_ALT then
    ({ s with compression := Compression.ASTC }, res, ASTC_10X6_UNorm)
  else if c = FOURCC_ASTC10x8 ∨ c = FOURCC_ASTC10x8_ALT then
    ({ s with compression := Compression.ASTC }, res, ASTC_10X8_UNorm)
  else if c = FOURCC_ASTC10x10 ∨ c = FOURCC_ASTC10x10_ALT then
    ({ s with compression := Compression.ASTC }, res, ASTC_10X10_UNorm)
  else if c = FOURCC_ASTC12x10 ∨ c = FOURCC_ASTC12x10_ALT then
    ({ s with compression := Compression.ASTC }, res, ASTC_12X10_UNorm)
  else if c = FOURCC_ASTC12x12 ∨ c = FOURCC_ASTC12x12_ALT then
    ({ s with compression := Compression.ASTC }, res, ASTC_12X12_UNorm)
  else if c = FOURCC_DX10 then
    (dx10FormatFixup s, res, s.header_DXT10.format)
  else if c = D3DFMT_R8G8B8 then
    ({ setPFMasks s 24 0xff0000 0x00ff00 0x0000ff 0x000000 with
         bitmask_has_alpha := false, bitmask_has_rgb := true, bitmasked := true },
     res, R8G8B8A8_UNorm)
  else if c = D3DFMT_A8R8G8B8 then
    ({ setPFMasks s 32 0x00ff0000 0x0000ff00 0x000000ff 0xff000000 with
         bitmask_has_alpha := false, bitmask_has_rgb := true, bitmasked := true },
     res, B8G8R8A8_UNorm)
  else if c = D3DFMT_X8R8G8B8 then
    ({ setPFMasks s 32 0x00ff0000 0x0000ff00 0x000000ff 0x00000000 with
         bitmask_has_alpha := false, bitmask_has_rgb := true, bitmasked := true },
     res, B8G8R8X8_UNorm)
  else if c = D3DFMT_R5G6B5 then
    ({ setPFMasks s 16 0xF800 0x07E0 0x001F 0x0000 with
         bitmask_has_alpha := false, bitmask_has_rgb := true, bitmasked := true },
     res, B5G6R5_UNorm)
  else if c = D3DFMT_X1R5G5B5 ∨ c = D3DFMT_A1R5G5B5 then
    ({ setPFMasks s 16 0xF800 0x07C0 0x003E (if c = D3DFMT_X1R5G5B5 then 0 else 1) with
         bitmask_has_alpha := c = D3DFMT_A1R5G5B5, bitmask_has_rgb := true,
         bitmasked := true },
     res, B5G5R5A1_UNorm)
  else if c = D3DFMT_A4R4G4B4 then
    ({ setPFMasks s 16 0xf000 0x0f00 0x00f0 0x000f with
         bitmask_has_alpha := true, bitmask_has_rgb := true, bitmasked := true },
     res, A4B4G4R4_UNorm)
  else if c = D3DFMT_R3G3B2 then
    ({ setPFMasks s 8 0xE0 0x1C 0x03 0 with
         bitmask_has_alpha := true, bitmask_has_rgb := true, bitmasked := true },
     res, Format_Unknown)
  else if c = D3DFMT_A8 then (s, res, A8_UNorm)
  else if c = D3DFMT_A8R3G3B2 then
    ({ setPFMasks s 16 0x00e0 0x001c 0x0003 0xff00 with
         bitmask_has_alpha := true, bitmask_has_rgb := true, bitmasked := true },
     res, Format_Unknown)
  else if c = D3DFMT_X4R4G4B4 then
    ({ setPFMasks s 16 0x0f00 0x00f0 0x000f 0x0000 with
         bitmask_has_alpha := false, bitmask_has_rgb := true, bitmasked := true },
     res, Format_Unknown)
  else if c = D3DFMT_A2B10G10R10 then
    ({ setPFMasks s 32 0x3FF 0xFFC00 0x3FF00000 0xC0000000 with
         bitmask_has_alpha := true, bitmask_has_rgb := true, bitmasked := true },
     res, R10G10B10A2_UNorm)
  else if c = D3DFMT_A8B8G8R8 then
    ({ setPFMasks s 32 0x000000ff 0x0000ff00 0x00ff0000 0xff000000 with
         bitmask_has_alpha := true, bitmask_has_rgb := true, bitmasked := true },
     res, R8G8B8A8_UNorm)
  else if c = D3DFMT_X8B8G8R8 then
    ({ setPFMasks s 32 0x00000000 0x0000ff00 0x00ff0000 0xff000000 with
         bitmask_has_alpha := false, bitmask_has_rgb := true, bitmasked := true },
     res, R8G8B8A8_UNorm)
  else if c = D3DFMT_G16R16 then (s, res, R16G16_UNorm)
  else if c = D3DFMT_A2R10G10B10 then
    ({ setPFMasks s 32 0x3FF 0xFFC00 0x3FF00000 0xC0000000 with
         bitmask_has_alpha := true, bitmask_has_rgb := true, bitmasked := true },
     res, R10G10B10A2_UNorm)
  else if c = D3DFMT_A16B16G16R16 then (s, res, R16G16B16A16_UNorm)
  else if c = D3DFMT_L8 then
    ({ setPFMasks3 s 8 0xff 0x00 0x00 with
         bitmask_has_rgb := true, bitmasked := true,
         color_transform := ColorTransform.eLuminance },
     res, R8_UNorm)
  else if c = D3DFMT_A8L8 then
    ({ setPFMasks s 16 0x00ff 0x0000 0x0000 0xff00 with
         bitmask_has_alpha := true, bitmask_has_rgb := true, bitmasked := true,
         color_transform := ColorTransform.eLuminance },
     res, R32G32B32_Float)
  else if c = D3DFMT_A4L4 then
    ({ setPFMasks s 8 0x0f 0x00 0x00 0xf0 with
         bitmask_has_alpha := true, bitmask_has_rgb := true, bitmasked := true,
         color_transform := ColorTransform.eLuminance },
     res, R32G32B32_Float)
  else if c = D3DFMT_V8U8 then (s, res, R8G8_SNorm)
  else if c = D3DFMT_Q8W8V8U8 then (s, res, R8G8B8A8_SNorm)
  else if c = D3DFMT_V16U16 then (s, res, R16G16_SNorm)
  else if c = D3DFMT_A2W10V10U10 then (s, res, R10G10B10A2_UInt)
  else if c = D3DFMT_D16 ∨ c = D3DFMT_D16_LOCKABLE then (s, res, D16_UNorm)
  else if c = D3DFMT_D32 ∨ c = D3DFMT_D32F_LOCKABLE then (s, res, D32_Float)
  else if c = D3DFMT_D24S8 ∨ c = D3DFMT_D24X8 ∨ c = D3DFMT_D24X4S4 then
    (s, res, D24_UNorm_S8_UInt)
  else if c = D3DFMT_S8_LOCKABLE then (s, res, R8_UInt)
  else if c = D3DFMT_L16 then
    ({ s with color_transform := ColorTransform.eLuminance }, res, R16_UNorm)
  else if c = D3DFMT_Q16W16V16U16 then (s, res, R16G16B16A16_SNorm)
  else if c = D3DFMT_R16F then (s, res, R16_Float)
  else if c = D3DFMT_G16R16F then (s, res, R16G16_Float)
  else if c = D3DFMT_A16B16G16R16F then (s, res, R16G16B16A16_Float)
  else if c = D3DFMT_R32F then (s, res, R32_Float)
  else if c = D3DFMT_G32R32F then (s, res, R32G32_Float)
  else if c = D3DFMT_A32B32G32R32F then (s, res, R32G32B32A32_Float)
  else if c = D3DFMT_CxV8U8 then
    ({ s with color_transform := ColorTransform.eOrthographicNormal }, res, R8G8_SNorm)
  else if c = D3DFMT_A2B10G10R10_XR_BIAS then
    ({ setPFMasks s 32 0x000003FF 0x000FFC00 0x3FF00000 0xC0000000 with
         bitmasked := true, bitmask_has_rgb := true, bitmask_has_alpha := true },
     res, R10G10B10_XR_BIAS_A2_UNorm)
  else (s, res, s.header_DXT10.format)

/-- `DDSFile::deduce_format_from_fourCC(Result&)`.  Returns the updated state,
the updated diagnostics, and the deduced `DXGIFormat` value. -/
def deduce_format_from_fourCC (s : DDSState) (res : Result) : DDSState × Result × Nat :=
  let c := s.header.pixel_format.fourCC
  let hasF0 : Bool := s.header.pixel_format.flags &&& flagFourCC ≠ 0
  -- non-conforming writer: fourCC present but flag unset
  let sres : DDSState × Result × Bool :=
    if hasF0 = false ∧ c ≠ 0 then
      ({ s with header := { s.header with pixel_format :=
           { s.header.pixel_format with
               flags := s.header.pixel_format.flags ||| flagFourCC } } },
       res.add sevWarning, true)
    else (s, res, hasF0)
  let s := sres.1
  let res := sres.2.1
  let has_fourCC := sres.2.2
  if has_fourCC then deduceSwitch s res c
  else (s, res, s.header_DXT10.format)

/-! ## Header verification and `load` -/

/-- The BGRA-family formats whose non-bitmasked handling flips to the
`SwapRB` color transform at the very end of `verify_header`. -/
def swapRBFormats : List Nat :=
  [B5G5R5A1_UNorm, B8G8R8A8_UNorm, B8G8R8A8_Typeless, B8G8R8A8_UNorm_SRGB,
   B8G8R8X8_UNorm, B8G8R8X8_Typeless, B8G8R8X8_UNorm_SRGB]

/-- The swizzle / flag-bit / BGRA color-transform block at the end of
`verify_header` (source order: swizzle code in `bit_count`, then the YUV flag,
then the Luminance flag, then the swap-RB family for non-bitmasked formats —
each later assignment overriding the earlier ones). -/
def colorTransformFixup (s : DDSState) : DDSState :=
  let ct1 :=
    if s.header.pixel_format.bit_count = FOURCC_A2XY then ColorTransform.eSwapRG
    else if s.header.pixel_format.bit_count = FOURCC_A2D5 then ColorTransform.eAGBR
    else s.color_transform
  let ct2 := if s.header.pixel_format.flags &&& flagYUV ≠ 0 then ColorTransform.eYUV else ct1
  let ct3 :=
    if s.header.pixel_format.flags &&& flagLuminance ≠ 0 then ColorTransform.eLuminance else ct2
  let ct4 :=
    if s.bitmasked = false ∧ s.header_DXT10.format ∈ swapRBFormats
    then ColorTransform.eSwapRB else ct3
  { s with color_transform := ct4 }

/-- The final `switch (header_DXT10.format)` of `verify_header`: the palette
formats AI44/IA44/P8/A8P8 degrade to a synthesized `R8G8B8A8_UNorm` with a
Warning; otherwise an undeterminable bits-per-pixel is a fatal Error (early
return, leaving the header unverified).  On the non-error paths
`m_header_verified` is set. -/
def verifyTail (s : DDSState) (res : Result) : DDSState × Result :=
  if s.header_DXT10.format ∈ [AI44, IA44, P8, A8P8] then
    ({ s with
        header_DXT10 := { s.header_DXT10 with format := R8G8B8A8_UNorm }
        bpp := 32
        num_channels := 4
        bitmasked := true
        bitmask_has_rgb := true
        bitmask_has_alpha := true
        right_shifts0 := 0
        right_shifts1 := 8
        right_shifts2 := 16
        right_shifts3 := 24
        header_verified := true },
     res.add sevWarning)
  else if s.bpp = 0 then (s, res.add sevError)
  else ({ s with header_verified := true }, res)

/-- The opening stretch of `verify_header`: header-size and pixel-format-size
warnings, mip-count sanitization (clamp to [1, 31] with a Warning for ≥ 32),
`is_cubemap = false`, the `AlphaPreMult` compatibility bit, and
`has_DXT10_header = false`. -/
def verifySanitize (s : DDSState) : DDSState × Result :=
  let res : Result := ⟨sevSuccess⟩
  let res := if s.header.size ≠ 124 then res.add sevWarning else res
  let res := if s.header.pixel_format.size ≠ 32 then res.add sevWarning else res
  -- Validate number of mips
  let s := { s with header := { s.header with mipmap_count := max 1 s.header.mipmap_count } }
  let sr : DDSState × Result :=
    if s.header.mipmap_count ≥ 32 then
      ({ s with header := { s.header with mipmap_count := 1 } }, res.add sevWarning)
    else (s, res)
  let s := sr.1
  let res := sr.2
  let s := { s with is_cubemap := false }
  let s :=
    if s.header.pixel_format.flags &&& flagAlphaPreMult ≠ 0 then
      { s with alpha_mode := ALPHA_MODE_PREMULTIPLIED }
    else s
  let s := { s with has_DXT10_header := false }
  (s, res)

/-- The `switch (header_DXT10.resource_dimension)` of the DX10 framing:
Texture1D forces height/depth to 1, Texture2D applies the cube-map ×6 and
clears depth, Texture3D sanity-checks the depth flag and array size, and an
unknown dimension is a Warning. -/
def framingDims (s : DDSState) (res : Result) : DDSState × Result :=
  if s.header_DXT10.resource_dimension = Texture1D then
    let res :=
      if s.header.flags &&& headerFlagHeight ≠ 0 ∧ s.header.height ≠ 1 then
        res.add sevWarning
      else res
    ({ s with header := { s.header with height := 1, depth := 1 } }, res)
  else if s.header_DXT10.resource_dimension = Texture2D then
    let s :=
      if s.header_DXT10.misc_flag &&& miscTextureCube ≠ 0 then
        { s with
            header_DXT10 := { s.header_DXT10 with
              array_size := s.header_DXT10.array_size * 6 % u32 }
            is_cubemap := true }
      else s
    ({ s with header := { s.header with depth := 1 } }, res)
  else if s.header_DXT10.resource_dimension = Texture3D then
    let res :=
      if s.header.flags &&& headerFlagDepth = 0 then res.add sevWarning else res
    if s.header_DXT10.array_size > 1 then
      ({ s with header_DXT10 := { s.header_DXT10 with array_size := 1 } },
       res.add sevWarning)
    else (s, res)
  else
    (s, res.add sevWarning)

/-- The DX10 framing branch of `verify_header`: the extended-header size
check (the Bool result is true on its early Error return), the header copy,
the array_size-0 correction, the resource-dimension switch (`framingDims`)
and the alpha mode. -/
def framingDX10 (s : DDSState) (res : Result) : DDSState × Result × Bool :=
  let res := res.add sevInfo
  if 148 ≥ s.dds.length then
    (s, res.add sevError, true)
  else
    let s := { s with has_DXT10_header := true, header_DXT10 := parseHeaderDXT10 s.dds }
    let sr : DDSState × Result :=
      if s.header_DXT10.array_size = 0 then
        ({ s with header_DXT10 := { s.header_DXT10 with array_size := 1 } },
         res.add sevWarning)
      else (s, res)
    let sr := framingDims sr.1 sr.2
    let s := sr.1
    let res := sr.2
    let s := { s with alpha_mode := s.header_DXT10.misc_flag2 &&& 7 }
    (s, res, false)

/-- The DX9 framing (no DX10 header): volume vs cube-map vs 2D detection. -/
def framingDX9 (s : DDSState) (res : Result) : DDSState × Result × Bool :=
  let res := res.add sevInfo
  if s.header.flags &&& headerFlagDepth ≠ 0 then
    ({ s with header_DXT10 := { s.header_DXT10 with resource_dimension := Texture3D } },
     res, false)
  else
    let caps2 := s.header.caps2 &&& cubemapAllFaces
    let sr : DDSState × Result :=
      if caps2 ≠ 0 then
        let res := if caps2 ≠ cubemapAllFaces then res.add sevWarning else res
        ({ s with
            header_DXT10 := { s.header_DXT10 with array_size := 6 }
            is_cubemap := true },
         res)
      else (s, res)
    let s := sr.1
    let res := sr.2
    ({ s with
        header := { s.header with depth := 1 }
        header_DXT10 := { s.header_DXT10 with resource_dimension := Texture2D } },
     res, false)

/-- The structural part of `verify_header` after sanitization: dispatch to the
DX10 framing (extended header detection, copy, dimension handling) or the DX9
framing, based on the FourCC flag and the `"DX10"` code. -/
def verifyFraming (s : DDSState) : DDSState × Result × Bool :=
  let s0 := verifySanitize s
  let s := s0.1
  let res := s0.2
  let hasFourCC : Bool := s.header.pixel_format.flags &&& flagFourCC ≠ 0
  if hasFourCC ∧ s.header.pixel_format.fourCC = FOURCC_DX10 then framingDX10 s res
  else framingDX9 s res

/-- The stages of `verify_header` before the `calc_channel_info(res)` call:
framing, four-character-code format deduction, and the bitmask fallback.  The
Bool is the early-Error flag from `verifyFraming`; when it is false, the
returned state is exactly the state on which `calc_channel_info` runs. -/
def verifyDeduce (s : DDSState) : DDSState × Result × Bool :=
  let fr := verifyFraming s
  let s := fr.1
  let res := fr.2.1
  if fr.2.2 then (s, res, true)
  else
    let dfr := deduce_format_from_fourCC s res
    let s := dfr.1
    let res := dfr.2.1
    let s := { s with header_DXT10 := { s.header_DXT10 with format := dfr.2.2 } }
    let s :=
      if s.header_DXT10.format = Format_Unknown ∧ s.bitmasked = false then
        deduce_bitmasks_from_pixel_format s
      else s
    (s, res, false)

/-- The body of `verify_header` for a not-yet-verified state: framing, format
deduction, bitmask fallback, channel info, color-transform fixup, final
palette-format/bpp checks. -/
def verifyMain (s : DDSState) : DDSState × Result :=
  let d := verifyDeduce s
  if d.2.2 then (d.1, d.2.1)
  else
    let cr := calc_channel_info d.1 d.2.1
    verifyTail (colorTransformFixup cr.1) cr.2

/-- `DDSFile::verify_header()`: memoized by `m_header_verified`. -/
def verify_header (s : DDSState) : DDSState × Result :=
  if s.header_verified then (s, ⟨sevSuccess⟩) else verifyMain s

/-- Early failures of `load(std::vector<uint8_t>&&)` (each is an immediate
`Result::Error` return with its own message, before the buffer is retained). -/
inductive LoadErr where
  | tooSmallForMagic
  | badMagic
  | tooSmallForHeader
  deriving Repr, DecidableEq

/-- The four magic bytes `"DDS "`. -/
def magicOk (dds : List Nat) : Bool :=
  decide (dds.getD 0 0 = 68 ∧ dds.getD 1 0 = 68 ∧ dds.getD 2 0 = 83 ∧ dds.getD 3 0 = 32)

/-- `DDSFile::load(std::vector<uint8_t>&&)`: size and magic checks (note the
header-size check is `4 + 124 >= size`, so a buffer of exactly 128 bytes is
rejected), then the header copy followed by `verify_header`. -/
def load (dds : List Nat) : Except LoadErr (DDSState × Result) :=
  if dds.length < 4 then .error .tooSmallForMagic
  else if magicOk dds = false then .error .badMagic
  else if 128 ≥ dds.length then .error .tooSmallForHeader
  else .ok (verify_header (initState dds))

/-! ## Image layout (`image_data_size` and `populate_image_data`)

All the multiplications and additions below that the C++ performs on
`uint32_t` operands are reduced `% u32` at each step; the final conversion to
`size_t` is value-preserving. -/

/-- `astc_size(block_width, block_height)` (local lambda of
`image_data_size`): number of 16-byte ASTC blocks covering `w × h × d`. -/
def astcSize (w h d bw bh : Nat) : Nat :=
  ((w + bw - 1) % u32 / bw) * ((h + bh - 1) % u32 / bh) % u32 * ((d + 1 - 1) / 1) % u32
    * 16 % u32

/-- The `switch (fmt)` of `image_data_size` computing `num_bytes` for a known,
non-bitmasked format (block-compressed, ASTC, packed 4:2:2, planar 4:2:0, or
the dense `(bpp·pixels+7)/8` base case). -/
def numBytesForFormat (fmt bpp w h d : Nat) : Nat :=
  let num_pixels := w * h % u32
  let num_bc_blocks := ((w + 3) % u32 / 4) * ((h + 3) % u32 / 4) % u32
  if fmt ∈ [BC1_Typeless, BC1_UNorm, BC1_UNorm_SRGB, BC4_Typeless, BC4_UNorm,
            BC4_SNorm] then
    num_bc_blocks * 8 % u32
  else if fmt ∈ [BC2_Typeless, BC2_UNorm, BC2_UNorm_SRGB, BC3_Typeless, BC3_UNorm,
                 BC3_UNorm_SRGB, BC5_Typeless, BC5_UNorm, BC5_SNorm, BC6H_Typeless,
                 BC6H_UF16, BC6H_SF16, BC7_Typeless, BC7_UNorm, BC7_UNorm_SRGB] then
    num_bc_blocks * 16 % u32
  else if fmt ∈ [ASTC_4X4_Typeless, ASTC_4X4_UNorm, ASTC_4X4_UNorm_SRGB] then
    astcSize w h d 4 4
  else if fmt ∈ [ASTC_5X4_Typeless, ASTC_5X4_UNorm, ASTC_5X4_UNorm_SRGB] then
    astcSize w h d 5 4
  else if fmt ∈ [ASTC_5X5_Typeless, ASTC_5X5_UNorm, ASTC_5X5_UNorm_SRGB] then
    astcSize w h d 5 5
  else if fmt ∈ [ASTC_6X5_Typeless, ASTC_6X5_UNorm, ASTC_6X5_UNorm_SRGB] then
    astcSize w h d 6 5
  else if fmt ∈ [ASTC_6X6_Typeless, ASTC_6X6_UNorm, ASTC_6X6_UNorm_SRGB] then
    astcSize w h d 6 6
  else if fmt ∈ [ASTC_8X5_Typeless, ASTC_8X5_UNorm, ASTC_8X5_UNorm_SRGB] then
    astcSize w h d 8 5
  else if fmt ∈ [ASTC_8X6_Typeless, ASTC_8X6_UNorm, ASTC_8X6_UNorm_SRGB] then
    astcSize w h d 8 6
  else if fmt ∈ [ASTC_8X8_Typeless, ASTC_8X8_UNorm, ASTC_8X8_UNorm_SRGB] then
    astcSize w h d 8 8
  else if fmt ∈ [ASTC_10X5_Typeless, ASTC_10X5_UNorm, ASTC_10X5_UNorm_SRGB] then
    astcSize w h d 10 5
  else if fmt ∈ [ASTC_10X6_Typeless, ASTC_10X6_UNorm, ASTC_10X6_UNorm_SRGB] then
    astcSize w h d 10 6
  else if fmt ∈ [ASTC_10X8_Typeless, ASTC_10X8_UNorm, ASTC_10X8_UNorm_SRGB] then
    astcSize w h d 10 8
  else if fmt ∈ [ASTC_10X10_Typeless, ASTC_10X10_UNorm, ASTC_10X10_UNorm_SRGB] then
    astcSize w h d 10 10
  else if fmt ∈ [ASTC_12X10_Typeless, ASTC_12X10_UNorm, ASTC_12X10_UNorm_SRGB] then
    astcSize w h d 12 10
  else if fmt ∈ [ASTC_12X12_Typeless, ASTC_12X12_UNorm, ASTC_12X12_UNorm_SRGB] then
    astcSize w h d 12 12
  else if fmt ∈ [R8G8_B8G8_UNorm, G8R8_G8B8_UNorm, YUY2] then
    ((w + 1) % u32 / 2) * 4 % u32 * h % u32
  else if fmt ∈ [Y210, Y216] then
    ((w + 1) % u32 / 2) * 8 % u32 * h % u32
  else if fmt = NV11 then
    (((w + 3) % u32 / 4) * 4 % u32 + h * 2 % u32) % u32
  else if fmt ∈ [NV12, YUV420_OPAQUE] then
    let luma := ((w + 1) % u32 / 2) * 2 % u32 * h % u32
    (luma + (luma + 1) % u32 / 2) % u32
  else if fmt ∈ [P010, P016] then
    let luma := ((w + 1) % u32 / 2) * 4 % u32 * h % u32
    (luma + (luma + 1) % u32 / 2) % u32
  else
    (bpp * num_pixels % u32 + 7) % u32 / 8

/-- `DDSFile::image_data_size(w, h, d, res)`. -/
def image_data_size (s : DDSState) (w h d : Nat) (res : Result) : Nat × Result :=
  let fmt := s.header_DXT10.format
  let num_pixels := w * h % u32
  if s.bitmasked = false ∧ fmt ≠ 0 then
    let num_bytes := numBytesForFormat fmt s.bpp w h d
    -- for uncompressed formats, cross-check the per-pixel rate against the
    -- explicit bit_count field; on mismatch the bit_count-derived value wins
    let nbres : Nat × Result :=
      if is_compressed fmt = false then
        let bytesPP := num_bytes / num_pixels
        if s.header.pixel_format.bit_count ≠ 0 ∧ s.header.pixel_format.bit_count ≤ 128 ∧
           bytesPP ≠ s.header.pixel_format.bit_count / 8 then
          (s.header.pixel_format.bit_count / 8, res.add sevWarning)
        else (num_bytes, res)
      else (num_bytes, res)
    (nbres.1 * d % u32, nbres.2)
  else if s.header.pixel_format.bit_count ≠ 0 then
    let file_size_bits :=
      s.header.pixel_format.bit_count * w % u32 * h % u32 * d % u32
    if file_size_bits > sizeTMax - 7 then (0, res.add sevWarning)
    else ((file_size_bits + 7) / 8, res)
  else
    if s.header.pitch_or_linear_size % s.header.width ≠ 0 then (0, res.add sevWarning)
    else
      let bitmasked_bits_per_pixel := s.header.pitch_or_linear_size / s.header.width
      let pitch := bitmasked_bits_per_pixel * w % u32
      (pitch * h % u32 * d % u32, res)

/-- Running state of the `populate_image_data` loop nest: the (possibly
truncated) header state, the byte offset of `src_bytes` into the buffer, the
`image_data` entries collected so far, and the diagnostics. -/
structure PopOut where
  st : DDSState
  off : Nat
  imgs : List ImageDataM
  res : Result
  deriving Repr, DecidableEq

/-- The inner (mip) loop of `populate_image_data`, from level `i` with
`fuel ≥ mipmap_count - i` remaining iterations.  The three `break` paths
(zero size / past end of buffer / implausibly large) truncate `mipmap_count`
and/or `array_size` exactly as the source does; every such break also makes
the outer loop condition fail on its next test. -/
def popMips (s : DDSState) (j w h d i : Nat) (fuel : Nat) (srcOff : Nat)
    (acc : List ImageDataM) (res : Result) : PopOut :=
  match fuel with
  | 0 => ⟨s, srcOff, acc, res⟩
  | fuel + 1 =>
    if i < s.header.mipmap_count then
      let dr := image_data_size s w h d res
      let data_size := dr.1
      let res := dr.2
      if data_size = 0 then
        ⟨{ s with
            header := { s.header with mipmap_count := i }
            header_DXT10 := { s.header_DXT10 with
              array_size := j + (if 0 < i then 1 else 0) } },
         srcOff, acc, res.add sevWarning⟩
      else if s.dds.length - srcOff < data_size then
        ⟨{ s with
            header := { s.header with mipmap_count := i }
            header_DXT10 := { s.header_DXT10 with
              array_size := j + (if 0 < i then 1 else 0) } },
         srcOff, acc, res.add sevWarning⟩
      else if data_size / w / h / d > 16 then
        ⟨{ s with
            header_DXT10 := { s.header_DXT10 with
              array_size := j + (if 0 < i then 1 else 0) } },
         srcOff, acc, res.add sevWarning⟩
      else
        popMips s j (max 1 (w / 2)) (max 1 (h / 2)) (max 1 (d / 2)) (i + 1) fuel
          (srcOff + data_size) (acc ++ [⟨w, h, d, srcOff, data_size⟩]) res
    else ⟨s, srcOff, acc, res⟩

/-- The outer (array-slice) loop of `populate_image_data`, from slice `j` with
`fuel` an upper bound on the remaining iterations (`array_size` never grows
during the loop). -/
def popSlices (s : DDSState) (j : Nat) (fuel : Nat) (srcOff : Nat)
    (acc : List ImageDataM) (res : Result) : PopOut :=
  match fuel with
  | 0 => ⟨s, srcOff, acc, res⟩
  | fuel + 1 =>
    if j < s.header_DXT10.array_size then
      let r := popMips s j s.header.width s.header.height s.header.depth 0
        s.header.mipmap_count srcOff acc res
      popSlices r.st (j + 1) fuel r.off r.imgs r.res
    else ⟨s, srcOff, acc, res⟩

/-- The final empty-result check of `populate_image_data`: no entries at all is
a fatal `NoImageDataError`. -/
def finalizePop (r : PopOut) : PopOut :=
  if r.imgs = [] then { r with res := r.res.add sevError } else r

/-- `DDSFile::populate_image_data()`.  On the post-`load` path the memoized
`verify_header` yields `Success` and the loops run; an unverified header whose
re-verification is not `Success` returns that result at once (leaving
`image_data` untouched — empty on a fresh object, modelled as `[]`). -/
def populate_image_data (s : DDSState) : PopOut :=
  let vr := verify_header s
  if vr.2.type ≠ sevSuccess then ⟨vr.1, 0, [], vr.2⟩
  else
    let offset := 4 + 124 + (if vr.1.has_DXT10_header then 20 else 0)
    finalizePop
      (popSlices vr.1 0 vr.1.header_DXT10.array_size offset [] vr.2)

/-- The tail of a `populate_image_data` execution that is mid-way through the
loop nest: finish the current slice's mip loop from level `i`, then run the
remaining slices and the final empty-result check.  `populate_image_data`
equals `populateResume` at `j = 0`, `i = 0` with the initial widths and fuels;
every intermediate point of the loop nest is a `populateResume` instance. -/
def populateResume (s : DDSState) (j w h d i fuelI fuelO srcOff : Nat)
    (acc : List ImageDataM) (res : Result) : PopOut :=
  let r := popMips s j w h d i fuelI srcOff acc res
  finalizePop (popSlices r.st (j + 1) fuelO r.off r.imgs r.res)

/-! ## Concrete input files used as counterexamples, failing inputs and
witnesses -/

/-- Little-endian byte encoding of a 32-bit word. -/
def u32bytes (x : Nat) : List Nat :=
  [x % 256, x / 256 % 256, x / 65536 % 256, x / 16777216 % 256]

/-- Build a DDS file: magic, 124-byte header (size 124, pixel-format size 32,
caps zero except `caps2`), optional 20-byte DXT10 header
`(format, dimension, misc, array_size, misc2)`, and `payload` bytes of 7s. -/
def mkDDSBuffer (hflags hh hw pitch depth mips pfflags fourcc bitcount m0 m1 m2 m3
    caps2 : Nat) (dxt10 : Option (Nat × Nat × Nat × Nat × Nat)) (payload : Nat) :
    List Nat :=
  [68, 68, 83, 32] ++ u32bytes 124 ++ u32bytes hflags ++ u32bytes hh ++ u32bytes hw ++
  u32bytes pitch ++ u32bytes depth ++ u32bytes mips ++ List.replicate 44 0 ++
  u32bytes 32 ++ u32bytes pfflags ++ u32bytes fourcc ++ u32bytes bitcount ++
  u32bytes m0 ++ u32bytes m1 ++ u32bytes m2 ++ u32bytes m3 ++ u32bytes 0 ++
  u32bytes caps2 ++ u32bytes 0 ++ u32bytes 0 ++ u32bytes 0 ++
  (match dxt10 with
   | some (f, rd, mf, as, mf2) =>
     u32bytes f ++ u32bytes rd ++ u32bytes mf ++ u32bytes as ++ u32bytes mf2
   | none => []) ++
  List.replicate payload 7

/-- An exactly-128-byte buffer starting with the DDS magic: the 4 magic bytes
plus a complete (zeroed) 124-byte header. -/
def buffer128 : List Nat := [68, 68, 83, 32] ++ List.replicate 124 0

/-- The same with one extra byte (129 bytes). -/
def buffer129 : List Nat := [68, 68, 83, 32] ++ List.replicate 125 0

/-- A 1×1 `R8G8B8A8_UNorm` DX10 file (array_size 1, 1 mip) whose pixel-format
`bit_count` field is 16; 12 payload bytes. -/
def c1Buffer : List Nat :=
  mkDDSBuffer 0 1 1 0 0 1 flagFourCC FOURCC_DX10 16 0 0 0 0 0 (some (28, 3, 0, 1, 0)) 12

/-- An 8×8 3-mip `DXT1` (BC1) file with only 40 payload bytes: levels need
32 + 8 + 8 bytes, so the third level exceeds the remaining buffer. -/
def c2Buffer : List Nat :=
  mkDDSBuffer 0 8 8 0 0 3 flagFourCC FOURCC_DXT1 0 0 0 0 0 0 none 40

/-- The header state retained after loading `c2Buffer`. -/
def c2State : DDSState :=
  match load c2Buffer with
  | .ok p => p.1
  | .error _ => initState []

/-- The per-level `ImageData` list that a fully-fitting uncompressed 32-bpp
mip chain produces, starting at dimensions `w × h` and byte offset `srcOff`,
for `n` levels: each level occupies `4·w·h` bytes and dimensions halve with a
floor of 1. -/
def levelsFrom : Nat → Nat → Nat → Nat → List ImageDataM
  | _, _, _, 0 => []
  | w, h, srcOff, n + 1 =>
    ⟨w, h, 1, srcOff, 4 * (w * h)⟩ ::
      levelsFrom (max 1 (w / 2)) (max 1 (h / 2)) (srcOff + 4 * (w * h)) n

/-- Total payload bytes of that chain. -/
def sizeFrom : Nat → Nat → Nat → Nat
  | _, _, 0 => 0
  | w, h, n + 1 => 4 * (w * h) + sizeFrom (max 1 (w / 2)) (max 1 (h / 2)) n

/-- A 4×4 two-mip DX10 `R8G8B8A8_UNorm` file (array_size 1, zero `bit_count`)
whose 80 payload bytes hold both levels exactly (64 + 16). -/
def c1OkBuffer : List Nat :=
  mkDDSBuffer 0 4 4 0 0 2 flagFourCC FOURCC_DX10 0 0 0 0 0 0 (some (28, 3, 0, 1, 0)) 80

/-- The header state retained after loading `c1OkBuffer`. -/
def c1State : DDSState :=
  match load c1OkBuffer with
  | .ok p => p.1
  | .error _ => initState []

/-- A bitmask-deduced file (RGB flag, no fourCC, zero `bit_count`) whose
declared pitch 5 is not divisible by its width 2. -/
def c6Buffer : List Nat :=
  mkDDSBuffer 0 4 2 5 0 1 flagRGB 0 0 0xFF 0 0 0 0 none 64

/-- A DX10 `B8G8R8A8_UNorm` (format 87) file whose pixel format also has the
Luminance flag bit set. -/
def c7Buffer : List Nat :=
  mkDDSBuffer 0 4 4 0 0 1 (flagFourCC + flagLuminance) FOURCC_DX10 0 0 0 0 0 0
    (some (87, 3, 0, 1, 0)) 64

/-- An 8×8 3-mip `DXT1` file with only 4 payload bytes: even the first level
(32 bytes) does not fit, so `populate_image_data` truncates at slice 0,
level 0. -/
def c8Buffer : List Nat :=
  mkDDSBuffer 0 8 8 0 0 3 flagFourCC FOURCC_DXT1 0 0 0 0 0 0 none 4

/-- A DX10 cube-map file: `R8G8B8A8_UNorm`, Texture2D, the TextureCube misc
flag, raw array_size 2 (so six faces of two slices: array_size becomes 12). -/
def c8CubeBuffer : List Nat :=
  mkDDSBuffer 0 4 4 0 0 1 flagFourCC FOURCC_DX10 0 0 0 0 0 0 (some (28, 3, 4, 2, 0)) 64

/-- A valid-magic file with width 0, no recognized format (no flags, zero
fourCC, zero masks) and zero `bit_count`. -/
def c10Buffer : List Nat :=
  mkDDSBuffer 0 4 0 5 0 1 0 0 0 0 0 0 0 0 none 64

/-- The source's branch condition under which `calc_channel_info` (and the
corresponding branch of `image_data_size`) evaluates
`header.pitch_or_linear_size % header.width`: the format is unknown or
bitmask-decoded, and the pixel-format bit count is zero.  When it holds with
`header.width = 0`, the C++ performs a modulo/division by zero. -/
def usesPitchOverWidthPath (s : DDSState) : Bool :=
  (s.bitmasked || s.header_DXT10.format = Format_Unknown) &&
    s.header.pixel_format.bit_count = 0

end Smalldds

/-! ## The `tinyddsloader` flipper (`src/tinyddsloader.h`)

`DDSFile::Flip` and the per-format compressed flips.  A block is a record of
`Nat` fields, one per `uint8`/`uint16` member of the source struct; an
image's compressed payload is its list of block rows (one entry per
`numYBlocks` row of `numXBlocks` blocks — the layout `GetImageInfo`
produces, where `m_memPitch` is exactly one block row), and an uncompressed
payload is its list of pixel lines of `m_memPitch` bytes.  The source
`switch`es on the format and reinterprets the same bytes as the matching
block type; with typed rows that reinterpretation is the `formatMatches`
coherence predicate, and the flip of a payload whose constructor does not
match the dispatched format — impossible in the source — leaves it
unchanged. -/

namespace Tinydds

open Smalldds

/-- `BC1Block`. -/
structure BC1Block where
  color0 : Nat
  color1 : Nat
  row0 : Nat
  row1 : Nat
  row2 : Nat
  row3 : Nat
  deriving Repr, DecidableEq

attribute [ext] BC1Block

/-- `BC2Block`. -/
structure BC2Block where
  alphaRow0 : Nat
  alphaRow1 : Nat
  alphaRow2 : Nat
  alphaRow3 : Nat
  color0 : Nat
  color1 : Nat
  row0 : Nat
  row1 : Nat
  row2 : Nat
  row3 : Nat
  deriving Repr, DecidableEq

attribute [ext] BC2Block

/-- `BC3Block`. -/
structure BC3Block where
  alpha0 : Nat
  alpha1 : Nat
  alphaR0 : Nat
  alphaR1 : Nat
  alphaR2 : Nat
  alphaR3 : Nat
  alphaR4 : Nat
  alphaR5 : Nat
  color0 : Nat
  color1 : Nat
  row0 : Nat
  row1 : Nat
  row2 : Nat
  row3 : Nat
  deriving Repr, DecidableEq

attribute [ext] BC3Block

/-- `BC4Block`. -/
structure BC4Block where
  red0 : Nat
  red1 : Nat
  redR0 : Nat
  redR1 : Nat
  redR2 : Nat
  redR3 : Nat
  redR4 : Nat
  redR5 : Nat
  deriving Repr, DecidableEq

attribute [ext] BC4Block

/-- `BC5Block`. -/
structure BC5Block where
  red0 : Nat
  red1 : Nat
  redR0 : Nat
  redR1 : Nat
  redR2 : Nat
  redR3 : Nat
  redR4 : Nat
  redR5 : Nat
  green0 : Nat
  green1 : Nat
  greenR0 : Nat
  greenR1 : Nat
  greenR2 : Nat
  greenR3 : Nat
  greenR4 : Nat
  greenR5 : Nat
  deriving Repr, DecidableEq

attribute [ext] BC5Block

/-- The cross-byte 3-bit-alpha-row splice `(x >> 4) | (y << 4)` of the BC3/
BC4/BC5 flips, truncated to a `uint8`. -/
def splice (x y : Nat) : Nat := (x >>> 4 ||| y <<< 4) % 256

/-- The height-2 BC1 block transform: swap rows 0/1 and rows 2/3. -/
def bc1H2 (b : BC1Block) : BC1Block :=
  { b with row0 := b.row1, row1 := b.row0, row2 := b.row3, row3 := b.row2 }

/-- The full BC1 block transform of the general case (also, with the partner
block equal to itself, the middle-row case): reverse the four rows. -/
def bc1Full (b : BC1Block) : BC1Block :=
  { b with row0 := b.row3, row1 := b.row2, row2 := b.row1, row3 := b.row0 }

/-- The height-2 BC2 block transform. -/
def bc2H2 (b : BC2Block) : BC2Block :=
  { b with
      alphaRow0 := b.alphaRow1, alphaRow1 := b.alphaRow0
      alphaRow2 := b.alphaRow3, alphaRow3 := b.alphaRow2
      row0 := b.row1, row1 := b.row0, row2 := b.row3, row3 := b.row2 }

/-- The full BC2 block transform: reverse the alpha rows and the color rows. -/
def bc2Full (b : BC2Block) : BC2Block :=
  { b with
      alphaRow0 := b.alphaRow3, alphaRow1 := b.alphaRow2
      alphaRow2 := b.alphaRow1, alphaRow3 := b.alphaRow0
      row0 := b.row3, row1 := b.row2, row2 := b.row1, row3 := b.row0 }

/-- The height-2 BC3 block transform (the `r0..r5` splices of the source). -/
def bc3H2 (b : BC3Block) : BC3Block :=
  { b with
      alphaR0 := splice b.alphaR1 b.alphaR2
      alphaR1 := splice b.alphaR2 b.alphaR0
      alphaR2 := splice b.alphaR0 b.alphaR1
      alphaR3 := splice b.alphaR4 b.alphaR5
      alphaR4 := splice b.alphaR5 b.alphaR3
      alphaR5 := splice b.alphaR3 b.alphaR4
      row0 := b.row1, row1 := b.row0, row2 := b.row3, row3 := b.row2 }

/-- The full BC3 block transform. -/
def bc3Full (b : BC3Block) : BC3Block :=
  { b with
      alphaR0 := splice b.alphaR4 b.alphaR5
      alphaR1 := splice b.alphaR5 b.alphaR3
      alphaR2 := splice b.alphaR3 b.alphaR4
      alphaR3 := splice b.alphaR1 b.alphaR2
      alphaR4 := splice b.alphaR2 b.alphaR0
      alphaR5 := splice b.alphaR0 b.alphaR1
      row0 := b.row3, row1 := b.row2, row2 := b.row1, row3 := b.row0 }

/-- The height-2 BC4 block transform. -/
def bc4H2 (b : BC4Block) : BC4Block :=
  { b with
      redR0 := splice b.redR1 b.redR2
      redR1 := splice b.redR2 b.redR0
      redR2 := splice b.redR0 b.redR1
      redR3 := splice b.redR4 b.redR5
      redR4 := splice b.redR5 b.redR3
      redR5 := splice b.redR3 b.redR4 }

/-- The full BC4 block transform. -/
def bc4Full (b : BC4Block) : BC4Block :=
  { b with
      redR0 := splice b.redR4 b.redR5
      redR1 := splice b.redR5 b.redR3
      redR2 := splice b.redR3 b.redR4
      redR3 := splice b.redR1 b.redR2
      redR4 := splice b.redR2 b.redR0
      redR5 := splice b.redR0 b.redR1 }

/-- The height-2 BC5 block transform (red and green channels). -/
def bc5H2 (b : BC5Block) : BC5Block :=
  { b with
      redR0 := splice b.redR1 b.redR2
      redR1 := splice b.redR2 b.redR0
      redR2 := splice b.redR0 b.redR1
      redR3 := splice b.redR4 b.redR5
      redR4 := splice b.redR5 b.redR3
      redR5 := splice b.redR3 b.redR4
      greenR0 := splice b.greenR1 b.greenR2
      greenR1 := splice b.greenR2 b.greenR0
      greenR2 := splice b.greenR0 b.greenR1
      greenR3 := splice b.greenR4 b.greenR5
      greenR4 := splice b.greenR5 b.greenR3
      greenR5 := splice b.greenR3 b.greenR4 }

/-- The full BC5 block transform. -/
def bc5Full (b : BC5Block) : BC5Block :=
  { b with
      redR0 := splice b.redR4 b.redR5
      redR1 := splice b.redR5 b.redR3
      redR2 := splice b.redR3 b.redR4
      redR3 := splice b.redR1 b.redR2
      redR4 := splice b.redR2 b.redR0
      redR5 := splice b.redR0 b.redR1
      greenR0 := splice b.greenR4 b.greenR5
      greenR1 := splice b.greenR5 b.greenR3
      greenR2 := splice b.greenR3 b.greenR4
      greenR3 := splice b.greenR1 b.greenR2
      greenR4 := splice b.greenR2 b.greenR0
      greenR5 := splice b.greenR0 b.greenR1 }

/-- One iteration of the row-pair loop at index `y` over `n` block rows: the
two partner rows `y` and `n - 1 - y` are exchanged with the full per-block
transform, or — when they are the same row (the odd middle, the source
comparing the two block pointers) — that row is transformed in place. -/
def swapRowsStep {α : Type} (full : α → α) (n : Nat) (rows : List (List α))
    (y : Nat) : List (List α) :=
  let r0 := rows.getD y []
  let r1 := rows.getD (n - 1 - y) []
  if y = n - 1 - y then rows.set y (r0.map full)
  else (rows.set y (r1.map full)).set (n - 1 - y) (r0.map full)

/-- The row-pair loop: `k` iterations of `swapRowsStep`, `y` ascending. -/
def flipLoop {α : Type} (full : α → α) (n : Nat) (rows : List (List α)) :
    Nat → List (List α)
  | 0 => rows
  | k + 1 => swapRowsStep full n (flipLoop full n rows k) k

/-- The shared skeleton of `FlipCompressedImageBC1`..`BC5`: height 1 is a
no-op, height 2 transforms the single block row in place with the
intra-block transform, and otherwise the row-pair loop runs for
`(numYBlocks + 1) / 2` iterations with the full transform. -/
def flipBCRows {α : Type} (h2 full : α → α) (height : Nat)
    (rows : List (List α)) : List (List α) :=
  let numYBlocks := (height + 3) / 4
  if height = 1 then rows
  else if height = 2 then rows.set 0 ((rows.getD 0 []).map h2)
  else flipLoop full numYBlocks rows ((numYBlocks + 1) / 2)

/-- An image's payload, typed by the block layout its format dictates. -/
inductive CompressedImage where
  | bc1 (width height : Nat) (rows : List (List BC1Block))
  | bc2 (width height : Nat) (rows : List (List BC2Block))
  | bc3 (width height : Nat) (rows : List (List BC3Block))
  | bc4 (width height : Nat) (rows : List (List BC4Block))
  | bc5 (width height : Nat) (rows : List (List BC5Block))
  | raw (height : Nat) (lines : List (List Nat))
  deriving Repr, DecidableEq

/-- `DDSFile::FlipCompressedImageBC1`. -/
def FlipCompressedImageBC1 : CompressedImage → CompressedImage
  | .bc1 w h rows => .bc1 w h (flipBCRows bc1H2 bc1Full h rows)
  | img => img

/-- `DDSFile::FlipCompressedImageBC2`. -/
def FlipCompressedImageBC2 : CompressedImage → CompressedImage
  | .bc2 w h rows => .bc2 w h (flipBCRows bc2H2 bc2Full h rows)
  | img => img

/-- `DDSFile::FlipCompressedImageBC3`. -/
def FlipCompressedImageBC3 : CompressedImage → CompressedImage
  | .bc3 w h rows => .bc3 w h (flipBCRows bc3H2 bc3Full h rows)
  | img => img

/-- `DDSFile::FlipCompressedImageBC4`. -/
def FlipCompressedImageBC4 : CompressedImage → CompressedImage
  | .bc4 w h rows => .bc4 w h (flipBCRows bc4H2 bc4Full h rows)
  | img => img

/-- `DDSFile::FlipCompressedImageBC5`. -/
def FlipCompressedImageBC5 : CompressedImage → CompressedImage
  | .bc5 w h rows => .bc5 w h (flipBCRows bc5H2 bc5Full h rows)
  | img => img

/-- `DDSFile::FlipCompressedImage`: dispatch on the stored format; the
BC1–BC5 variants flip and report success, every other format returns
`false` without touching the payload. -/
def FlipCompressedImage (fmt : Nat) (img : CompressedImage) :
    Bool × CompressedImage :=
  if fmt = BC1_Typeless ∨ fmt = BC1_UNorm ∨ fmt = BC1_UNorm_SRGB then
    (true, FlipCompressedImageBC1 img)
  else if fmt = BC2_Typeless ∨ fmt = BC2_UNorm ∨ fmt = BC2_UNorm_SRGB then
    (true, FlipCompressedImageBC2 img)
  else if fmt = BC3_Typeless ∨ fmt = BC3_UNorm ∨ fmt = BC3_UNorm_SRGB then
    (true, FlipCompressedImageBC3 img)
  else if fmt = BC4_Typeless ∨ fmt = BC4_UNorm ∨ fmt = BC4_SNorm then
    (true, FlipCompressedImageBC4 img)
  else if fmt = BC5_Typeless ∨ fmt = BC5_UNorm ∨ fmt = BC5_SNorm then
    (true, FlipCompressedImageBC5 img)
  else (false, img)

/-- `DDSFile::FlipImage`: swap pixel line `y` with line `height - 1 - y` for
`y < height / 2` (the pairs are always distinct there). -/
def FlipImage : CompressedImage → Bool × CompressedImage
  | .raw h lines => (true, .raw h (flipLoop (fun b => b) h lines (h / 2)))
  | img => (true, img)

/-- The compressed arm of `DDSFile::Flip`: flip each image in turn; a failed
image stops the loop at once (that image and the rest untouched). -/
def FlipLoopCompressed (fmt : Nat) :
    List CompressedImage → Bool × List CompressedImage
  | [] => (true, [])
  | img :: rest =>
    let r := FlipCompressedImage fmt img
    if r.1 then
      let rr := FlipLoopCompressed fmt rest
      (rr.1, r.2 :: rr.2)
    else (false, r.2 :: rest)

/-- The uncompressed arm of `DDSFile::Flip`. -/
def FlipLoopImages : List CompressedImage → Bool × List CompressedImage
  | [] => (true, [])
  | img :: rest =>
    let r := FlipImage img
    if r.1 then
      let rr := FlipLoopImages rest
      (rr.1, r.2 :: rr.2)
    else (false, r.2 :: rest)

/-- `DDSFile::IsCompressed`: the BC1–BC7 block-compressed formats. -/
def tinyIsCompressed (fmt : Nat) : Bool :=
  decide (fmt ∈ [BC1_Typeless, BC1_UNorm, BC1_UNorm_SRGB,
    BC2_Typeless, BC2_UNorm, BC2_UNorm_SRGB,
    BC3_Typeless, BC3_UNorm, BC3_UNorm_SRGB,
    BC4_Typeless, BC4_UNorm, BC4_SNorm,
    BC5_Typeless, BC5_UNorm, BC5_SNorm,
    BC6H_Typeless, BC6H_UF16, BC6H_SF16,
    BC7_Typeless, BC7_UNorm, BC7_UNorm_SRGB])

/-- `DDSFile::Flip`. -/
def Flip (fmt : Nat) (imgs : List CompressedImage) :
    Bool × List CompressedImage :=
  if tinyIsCompressed fmt then FlipLoopCompressed fmt imgs
  else FlipLoopImages imgs

/-- `DDSFile::GetBitsPerPixel`.  The `tinyddsloader` `DXGIFormat` enum stops
at `V408 = 132`; every value beyond it — the ASTC range included — falls to
the `default: return 0`. -/
def tinyGetBitsPerPixel (fmt : Nat) : Nat :=
  if fmt ∈ [R32G32B32A32_Typeless, R32G32B32A32_Float, R32G32B32A32_UInt,
    R32G32B32A32_SInt] then 128
  else if fmt ∈ [R32G32B32_Typeless, R32G32B32_Float, R32G32B32_UInt,
    R32G32B32_SInt] then 96
  else if fmt ∈ [R16G16B16A16_Typeless, R16G16B16A16_Float, R16G16B16A16_UNorm,
    R16G16B16A16_UInt, R16G16B16A16_SNorm, R16G16B16A16_SInt, R32G32_Typeless,
    R32G32_Float, R32G32_UInt, R32G32_SInt, R32G8X24_Typeless,
    D32_Float_S8X24_UInt, R32_Float_X8X24_Typeless, X32_Typeless_G8X24_UInt,
    Y416, Y210, Y216] then 64
  else if fmt ∈ [R10G10B10A2_Typeless, R10G10B10A2_UNorm, R10G10B10A2_UInt,
    R11G11B10_Float, R8G8B8A8_Typeless, R8G8B8A8_UNorm, R8G8B8A8_UNorm_SRGB,
    R8G8B8A8_UInt, R8G8B8A8_SNorm, R8G8B8A8_SInt, R16G16_Typeless,
    R16G16_Float, R16G16_UNorm, R16G16_UInt, R16G16_SNorm, R16G16_SInt,
    R32_Typeless, D32_Float, R32_Float, R32_UInt, R32_SInt, R24G8_Typeless,
    D24_UNorm_S8_UInt, R24_UNorm_X8_Typeless, X24_Typeless_G8_UInt,
    R9G9B9E5_SHAREDEXP, R8G8_B8G8_UNorm, G8R8_G8B8_UNorm, B8G8R8A8_UNorm,
    B8G8R8X8_UNorm, R10G10B10_XR_BIAS_A2_UNorm, B8G8R8A8_Typeless,
    B8G8R8A8_UNorm_SRGB, B8G8R8X8_Typeless, B8G8R8X8_UNorm_SRGB, AYUV, Y410,
    YUY2] then 32
  else if fmt ∈ [P010, P016] then 24
  else if fmt ∈ [R8G8_Typeless, R8G8_UNorm, R8G8_UInt, R8G8_SNorm, R8G8_SInt,
    R16_Typeless, R16_Float, D16_UNorm, R16_UNorm, R16_UInt, R16_SNorm,
    R16_SInt, B5G6R5_UNorm, B5G5R5A1_UNorm, A8P8, B4G4R4A4_UNorm] then 16
  else if fmt ∈ [NV12, YUV420_OPAQUE, NV11] then 12
  else if fmt ∈ [R8_Typeless, R8_UNorm, R8_UInt, R8_SNorm, R8_SInt, A8_UNorm,
    AI44, IA44, P8] then 8
  else if fmt = R1_UNorm then 1
  else if fmt ∈ [BC1_Typeless, BC1_UNorm, BC1_UNorm_SRGB, BC4_Typeless,
    BC4_UNorm, BC4_SNorm] then 4
  else if fmt ∈ [BC2_Typeless, BC2_UNorm, BC2_UNorm_SRGB, BC3_Typeless,
    BC3_UNorm, BC3_UNorm_SRGB, BC5_Typeless, BC5_UNorm, BC5_SNorm,
    BC6H_Typeless, BC6H_UF16, BC6H_SF16, BC7_Typeless, BC7_UNorm,
    BC7_UNorm_SRGB] then 8
  else 0

/-- The format `switch` of `VerifyHeader`: the palette formats are
`ErrorNotSupported`, and so is any format whose `GetBitsPerPixel` is 0.
`true` means the format passes verification. -/
def tinyFormatCheck (fmt : Nat) : Bool :=
  if fmt ∈ [AI44, IA44, P8, A8P8] then false
  else decide (tinyGetBitsPerPixel fmt ≠ 0)

/-- The coherence of a stored format with a typed payload: the constructor
is the block layout the format dictates (in the source this holds by
construction — the same bytes are reinterpreted). -/
def formatMatches : Nat → CompressedImage → Bool
  | fmt, .bc1 _ _ _ =>
    decide (fmt = BC1_Typeless ∨ fmt = BC1_UNorm ∨ fmt = BC1_UNorm_SRGB)
  | fmt, .bc2 _ _ _ =>
    decide (fmt = BC2_Typeless ∨ fmt = BC2_UNorm ∨ fmt = BC2_UNorm_SRGB)
  | fmt, .bc3 _ _ _ =>
    decide (fmt = BC3_Typeless ∨ fmt = BC3_UNorm ∨ fmt = BC3_UNorm_SRGB)
  | fmt, .bc4 _ _ _ =>
    decide (fmt = BC4_Typeless ∨ fmt = BC4_UNorm ∨ fmt = BC4_SNorm)
  | fmt, .bc5 _ _ _ =>
    decide (fmt = BC5_Typeless ∨ fmt = BC5_UNorm ∨ fmt = BC5_SNorm)
  | _, _ => false

/-- Every byte-sized field feeding a BC3 splice is an actual byte. -/
def bc3Bounded (b : BC3Block) : Bool :=
  decide (b.alphaR0 < 256) && decide (b.alphaR1 < 256) &&
  decide (b.alphaR2 < 256) && decide (b.alphaR3 < 256) &&
  decide (b.alphaR4 < 256) && decide (b.alphaR5 < 256)

/-- Every byte-sized field feeding a BC4 splice is an actual byte. -/
def bc4Bounded (b : BC4Block) : Bool :=
  decide (b.redR0 < 256) && decide (b.redR1 < 256) &&
  decide (b.redR2 < 256) && decide (b.redR3 < 256) &&
  decide (b.redR4 < 256) && decide (b.redR5 < 256)

/-- Every byte-sized field feeding a BC5 splice is an actual byte. -/
def bc5Bounded (b : BC5Block) : Bool :=
  decide (b.redR0 < 256) && decide (b.redR1 < 256) &&
  decide (b.redR2 < 256) && decide (b.redR3 < 256) &&
  decide (b.redR4 < 256) && decide (b.redR5 < 256) &&
  decide (b.greenR0 < 256) && decide (b.greenR1 < 256) &&
  decide (b.greenR2 < 256) && decide (b.greenR3 < 256) &&
  decide (b.greenR4 < 256) && decide (b.greenR5 < 256)

/-- All splice-fed payload bytes of an image are bytes (the remaining fields
are only ever exchanged whole). -/
def imageBounded : CompressedImage → Bool
  | .bc3 _ _ rows => rows.all fun r => r.all bc3Bounded
  | .bc4 _ _ rows => rows.all fun r => r.all bc4Bounded
  | .bc5 _ _ rows => rows.all fun r => r.all bc5Bounded
  | _ => true

/-- The stored height of an image. -/
def imageHeight : CompressedImage → Nat
  | .bc1 _ h _ => h
  | .bc2 _ h _ => h
  | .bc3 _ h _ => h
  | .bc4 _ h _ => h
  | .bc5 _ h _ => h
  | .raw h _ => h

/-- The payload holds exactly the `numYBlocks` block rows the dimensions
dictate, resp. exactly `height` pixel lines. -/
def imageWellFormed : CompressedImage → Bool
  | .bc1 _ h rows => decide (rows.length = (h + 3) / 4)
  | .bc2 _ h rows => decide (rows.length = (h + 3) / 4)
  | .bc3 _ h rows => decide (rows.length = (h + 3) / 4)
  | .bc4 _ h rows => decide (rows.length = (h + 3) / 4)
  | .bc5 _ h rows => decide (rows.length = (h + 3) / 4)
  | .raw h lines => decide (lines.length = h)

/-- An 8×8 two-block-row BC3 image with distinct byte values, used as the
concrete involution witness. -/
def c3Img : CompressedImage :=
  .bc3 8 8
    [[⟨1, 2, 3, 4, 5, 6, 7, 8, 9, 10, 11, 12, 13, 14⟩,
      ⟨20, 21, 22, 23, 24, 25, 26, 27, 28, 29, 30, 31, 32, 33⟩],
     [⟨41, 42, 43, 44, 45, 46, 47, 48, 49, 50, 51, 52, 53, 54⟩,
      ⟨61, 62, 63, 64, 65, 66, 67, 68, 69, 70, 71, 72, 73, 74⟩]]

end Tinydds

namespace Smalldds

/-! ## Behaviour of `calc_shifts` (claim C5 support) -/

theorem firstSetFrom_spec (fuel : Nat) :
    ∀ mask i, mask ≠ 0 → mask < 2 ^ fuel →
      ∃ r, firstSetFrom mask fuel i = (i + r, mask / 2 ^ r) ∧
        (mask / 2 ^ r) % 2 = 1 ∧ ∀ k, k < r → mask.testBit k = false := by
  induction fuel with
  | zero =>
    intro mask i h0 hlt
    interval_cases mask
    exact absurd rfl h0
  | succ fuel ih =>
    intro mask i h0 hlt
    by_cases hodd : mask % 2 = 1
    · refine ⟨0, ?_, ?_, ?_⟩
      · simp [firstSetFrom, hodd]
      · simpa using hodd
      · intro k hk; omega
    · have heven : mask % 2 = 0 := by omega
      have h2 : mask / 2 ≠ 0 := by
        intro hz
        have := Nat.div_add_mod mask 2
        omega
      have hlt2 : mask / 2 < 2 ^ fuel := by
        have := Nat.div_add_mod mask 2
        have hp : 2 ^ (fuel + 1) = 2 ^ fuel * 2 := by ring
        omega
      obtain ⟨r, hr, hodd', hbits⟩ := ih (mask / 2) (i + 1) h2 hlt2
      refine ⟨r + 1, ?_, ?_, ?_⟩
      · have : firstSetFrom mask (fuel + 1) i = firstSetFrom (mask / 2) fuel (i + 1) := by
          simp [firstSetFrom, hodd]
        rw [this, hr]
        have hdiv : mask / 2 / 2 ^ r = mask / 2 ^ (r + 1) := by
          rw [Nat.div_div_eq_div_mul]
          ring_nf
        rw [hdiv]
        have : i + 1 + r = i + (r + 1) := by omega
        rw [this]
      · rw [show 2 ^ (r + 1) = 2 * 2 ^ r by ring, ← Nat.div_div_eq_div_mul]
        exact hodd'
      · intro k hk
        match k with
        | 0 => simpa [Nat.testBit_zero] using heven
        | k + 1 =>
          rw [Nat.testBit_succ]
          exact hbits k (by omega)

theorem countOnes_spec (fuel : Nat) :
    ∀ mask i, ∃ t, countOnes mask fuel i = i + t ∧ t ≤ fuel ∧
      (∀ k, k < t → mask.testBit k = true) ∧
      (t < fuel → mask.testBit t = false) := by
  induction fuel with
  | zero =>
    intro mask i
    exact ⟨0, rfl, Nat.le_refl 0, fun k hk => absurd hk (Nat.not_lt_zero k), fun h => absurd h (by omega)⟩
  | succ fuel ih =>
    intro mask i
    by_cases hodd : mask % 2 = 1
    · obtain ⟨t, ht, htle, hones, hend⟩ := ih (mask / 2) (i + 1)
      refine ⟨t + 1, ?_, by omega, ?_, ?_⟩
      · simp only [countOnes, hodd, if_pos]
        omega
      · intro k hk
        match k with
        | 0 => simpa [Nat.testBit_zero] using hodd
        | k + 1 =>
          rw [Nat.testBit_succ]
          exact hones k (by omega)
      · intro hlt
        rw [Nat.testBit_succ]
        exact hend (by omega)
    · refine ⟨0, ?_, by omega, fun k hk => absurd hk (Nat.not_lt_zero k), ?_⟩
      · simp [countOnes, hodd]
      · intro _
        simpa [Nat.testBit_zero] using hodd

theorem testBit_div_pow (m r k : Nat) : (m / 2 ^ r).testBit k = m.testBit (r + k) := by
  rw [← Nat.shiftRight_eq_div_pow, Nat.testBit_shiftRight]

/-- **C5.** For every 32-bit channel mask, `calc_shifts` returns a right-shift
equal to the position of the lowest set bit and a width equal to the length of
the contiguous run of set bits starting at that position (bits of the mask
above a gap are not counted); for the zero mask it returns width 0 and shift 0.
Formally: writing `(count, right) = calc_shifts mask`, every bit below `right`
is clear, bits `right, …, right+count-1` are all set, and bit `right + count`
is clear. -/
theorem calc_shifts_spec (mask : Nat) (hm : mask < 2 ^ 32) :
    (mask = 0 → calc_shifts mask = (0, 0)) ∧
    (mask ≠ 0 →
      (∀ k, k < (calc_shifts mask).2 → mask.testBit k = false) ∧
      (∀ k, k < (calc_shifts mask).1 → mask.testBit ((calc_shifts mask).2 + k) = true) ∧
      mask.testBit ((calc_shifts mask).2 + (calc_shifts mask).1) = false) := by
  constructor
  · intro h0
    simp [calc_shifts, h0]
  · intro h0
    obtain ⟨r, hr, hodd, hlow⟩ := firstSetFrom_spec 32 mask 0 h0 hm
    obtain ⟨t, ht, htle, hones, hend⟩ := countOnes_spec 32 (mask / 2 ^ r) 0
    have hcs : calc_shifts mask = (t, r) := by
      simp only [calc_shifts, if_neg h0, hr, ht, Nat.zero_add]
    rw [hcs]
    refine ⟨hlow, ?_, ?_⟩
    · intro k hk
      have := hones k hk
      rwa [testBit_div_pow] at this
    · by_cases hcap : t < 32
      · have := hend hcap
        rwa [testBit_div_pow] at this
      · have h32 : r + t ≥ 32 := by omega
        have : mask < 2 ^ (r + t) :=
          lt_of_lt_of_le hm (Nat.pow_le_pow_right (by norm_num) h32)
        exact Nat.testBit_eq_false_of_lt this

/-- Witness for C5 at mask `0b101100` (= 44): `calc_shifts 44 = (2, 2)`, i.e.
the shift is 2 (lowest set bit) and the width is 2 (the run `11` at bits 2–3;
the set bit 5 above the gap is not counted). -/
theorem calc_shifts_spec_witness :
    ((44 : Nat) = 0 → calc_shifts 44 = (0, 0)) ∧
    ((44 : Nat) ≠ 0 →
      (∀ k, k < (calc_shifts 44).2 → Nat.testBit 44 k = false) ∧
      (∀ k, k < (calc_shifts 44).1 → Nat.testBit 44 ((calc_shifts 44).2 + k) = true) ∧
      Nat.testBit 44 ((calc_shifts 44).2 + (calc_shifts 44).1) = false) :=
  calc_shifts_spec 44 (by norm_num)

set_option maxRecDepth 100000

/-! ## C4: the exact-128-byte buffer -/

/-- **C4.** The claim says a buffer of exactly 128 bytes (4-byte magic +
124-byte header) passes the header-size check; the code's check is
`4 + 124 >= size`, which rejects it with the size error ("File too small for
DDS header") even though the full header is present, while a 129-byte buffer
passes.  This evaluates the code at the failing input. -/
theorem load_at_exact_128_bytes :
    load buffer128 = .error .tooSmallForHeader ∧
    (load buffer129).toOption.isSome = true := by
  exact ⟨by rfl, by rfl⟩

/-! ## C6: non-divisible pitch warns but does not zero bpp -/

/-- **C6.** On a file taking the implied-by-pitch path (bitmask-decoded,
bit count 0) with pitch 5 and width 2, header validation records a Warning —
but the resulting bits-per-pixel is `5 / 2 = 2`, not the 0 the claim (and the
spec) state: the source's `bpp = 0;` in the warning branch is immediately
overwritten by the unconditional `bpp = pitch_or_linear_size / width`. -/
theorem c6_pitch_warning_bpp_not_zero :
    ((load c6Buffer).toOption.map fun p => (p.1.bpp, p.2.type)) =
      some (2, sevWarning) ∧ (2 : Nat) ≠ 0 :=
  ⟨by rfl, by decide⟩

/-! ## C10: unguarded division by a zero width -/

/-- **C10.** `c10Buffer` has a valid magic, width 0, no recognized format and
bit count 0.  `load` accepts it past the size and magic checks, the
verification pipeline reaches `calc_channel_info` (no early return), and the
state there satisfies the branch condition under which the source evaluates
`pitch_or_linear_size % width` — a modulo/division by zero, since the width
is 0 and nothing in the pipeline guards against it.  The same branch condition
selects the dividing path of `image_data_size`. -/
theorem c10_division_by_zero_width :
    usesPitchOverWidthPath (verifyDeduce (initState c10Buffer)).1 = true ∧
    (verifyDeduce (initState c10Buffer)).1.header.width = 0 ∧
    (verifyDeduce (initState c10Buffer)).2.2 = false ∧
    (load c10Buffer).toOption.isSome = true := by
  refine ⟨by rfl, by rfl, by rfl, by rfl⟩

/-! ## C7: the Luminance flag override and its SwapRB exception -/

/-- **C7 (counterexample).** A DX10 `B8G8R8A8_UNorm` file with the
pixel-format Luminance flag bit set ends header verification with the
`SwapRB` color transform, not `Luminance`: the BGRA-family swap-RB
assignment runs after the Luminance-flag check and overrides it. -/
theorem c7_luminance_overridden_by_swapRB :
    ((load c7Buffer).toOption.map fun p => p.1.color_transform) =
      some ColorTransform.eSwapRB ∧
    (readU32 c7Buffer 80).testBit 17 = true ∧
    ColorTransform.eSwapRB ≠ ColorTransform.eLuminance :=
  ⟨by rfl, by decide, by decide⟩

/-! ## C8: array_size after a failed populate -/

/-- **C8 (counterexample).** After `load` succeeds on `c8Buffer` (an 8×8 DXT1
file whose payload cannot hold even the first mip level),
`populate_image_data` truncates at slice 0, level 0 and leaves the stored
`array_size` at 0 — the claimed `array_size ≥ 1` invariant does not hold at
this public operation boundary. -/
theorem c8_array_size_zero_after_populate :
    ((load c8Buffer).toOption.map fun p =>
      ((populate_image_data p.1).st.header_DXT10.array_size,
       (populate_image_data p.1).imgs)) = some (0, []) := by
  rfl

/-! ## C1: level sizes for an extended-header R8G8B8A8_UNorm file -/

/-- **C1 (counterexample).** `c1Buffer` is a DDS file whose extended header
names `R8G8B8A8_UNorm` with array_size 1 and whose payload (12 bytes) is large
enough for its single declared 1×1 level — but its pixel-format `bit_count`
field is 16, so the uncompressed cross-check in `image_data_size` overrides
the computed size with `bit_count / 8 = 2`: the produced entry has byte length
2, not `4·w·h = 4`. -/
theorem c1_bit_count_overrides_size :
    ((load c1Buffer).toOption.map fun p => (populate_image_data p.1).imgs) =
      some [⟨1, 1, 1, 148, 2⟩] ∧ (2 : Nat) ≠ 4 * 1 * 1 :=
  ⟨by rfl, by decide⟩

/-! ## C2: truncation on a too-large level -/

/-- `image_data_size` adds at most Warnings to the diagnostics. -/
theorem image_data_size_type_le (s : DDSState) (w h d : Nat) (res : Result)
    (hres : res.type ≤ sevWarning) :
    (image_data_size s w h d res).2.type ≤ sevWarning := by
  unfold image_data_size
  dsimp only
  split_ifs <;> simp [Result.add, sevWarning] at * <;> omega

/-- **C2.** If, mid-way through the mip loop at slice `j`, level `i`, the
computed byte size of the level is non-zero but exceeds the bytes remaining in
the buffer, then the rest of `populate_image_data` (the break, the outer-loop
exit and the final empty-result check) returns with `mipmap_count` truncated
to `i`, `array_size` truncated to `j` plus one iff some level of this slice
was collected, the rolled-up severity Warning (not Error), and the
`image_data` entries collected so far returned unchanged — provided at least
one entry had been collected. -/
theorem c2_truncation_keeps_collected (s : DDSState)
    (j w h d i fuelI fuelO srcOff : Nat) (acc : List ImageDataM) (res : Result)
    (hmip : i < s.header.mipmap_count)
    (hsize : (image_data_size s w h d res).1 ≠ 0)
    (hbig : s.dds.length - srcOff < (image_data_size s w h d res).1)
    (hacc : acc ≠ [])
    (hres : res.type ≤ sevWarning) :
    populateResume s j w h d i (fuelI + 1) fuelO srcOff acc res =
      ⟨{ s with
          header := { s.header with mipmap_count := i }
          header_DXT10 := { s.header_DXT10 with
            array_size := j + (if 0 < i then 1 else 0) } },
        srcOff, acc, ⟨sevWarning⟩⟩ := by
  have htype := image_data_size_type_le s w h d res hres
  set st : DDSState :=
    { s with
        header := { s.header with mipmap_count := i }
        header_DXT10 := { s.header_DXT10 with
          array_size := j + (if 0 < i then 1 else 0) } } with hstdef
  have hmips : popMips s j w h d i (fuelI + 1) srcOff acc res =
      ⟨st, srcOff, acc, (image_data_size s w h d res).2.add sevWarning⟩ := by
    unfold popMips
    rw [if_pos hmip, if_neg hsize, if_pos hbig]
  have hwarn : (image_data_size s w h d res).2.add sevWarning = ⟨sevWarning⟩ := by
    simp only [Result.add]
    congr 1
    omega
  have harr : ¬ (j + 1 < st.header_DXT10.array_size) := by
    rw [hstdef]
    dsimp only
    split_ifs <;> omega
  unfold populateResume
  rw [hmips, hwarn]
  dsimp only
  have hslices : popSlices st (j + 1) fuelO srcOff acc ⟨sevWarning⟩ =
      ⟨st, srcOff, acc, ⟨sevWarning⟩⟩ := by
    match fuelO with
    | 0 => rfl
    | fuelO' + 1 =>
      unfold popSlices
      rw [if_neg harr]
  rw [hslices]
  unfold finalizePop
  rw [if_neg hacc]

/-- Witness for C2: loading `c2Buffer` (8×8 DXT1, 3 declared mips, 40 payload
bytes) collects the first two levels (32 and 8 bytes), then level 2's 8 bytes
exceed the 0 bytes remaining; the resume point is slice 0, level 2 with the
two collected entries. -/
theorem c2_truncation_keeps_collected_witness :
    populateResume c2State 0 2 2 1 2 1 0 168
        [⟨8, 8, 1, 128, 32⟩, ⟨4, 4, 1, 160, 8⟩] ⟨sevSuccess⟩ =
      ⟨{ c2State with
          header := { c2State.header with mipmap_count := 2 }
          header_DXT10 := { c2State.header_DXT10 with
            array_size := 0 + (if 0 < 2 then 1 else 0) } },
        168, [⟨8, 8, 1, 128, 32⟩, ⟨4, 4, 1, 160, 8⟩], ⟨sevWarning⟩⟩ :=
  c2_truncation_keeps_collected c2State 0 2 2 1 2 0 0 168
    [⟨8, 8, 1, 128, 32⟩, ⟨4, 4, 1, 160, 8⟩] ⟨sevSuccess⟩
    (by decide) (by decide) (by decide) (by decide) (by decide)


/-! ## C8: the array_size invariant (support lemmas) -/

set_option maxHeartbeats 1000000

/-- `dx10FormatFixup` never writes the extended header record. -/
theorem dx10FormatFixup_dxt10_eq (s : DDSState) :
    (dx10FormatFixup s).header_DXT10 = s.header_DXT10 := by
  simp only [dx10FormatFixup, setPFMasks, setPFMasks3,
    apply_ite (fun st : DDSState => st.header_DXT10), ite_self]

/-- `deduceSwitch` never writes the extended header record. -/
theorem deduceSwitch_dxt10_eq (s : DDSState) (res : Result) (c : Nat) :
    (deduceSwitch s res c).1.header_DXT10 = s.header_DXT10 := by
  rw [deduceSwitch]
  simp only [apply_ite (fun p : DDSState × Result × Nat => p.1.header_DXT10),
    dx10FormatFixup_dxt10_eq, setPFMasks, setPFMasks3, ite_self]

/-- `deduce_format_from_fourCC` never writes the extended header record. -/
theorem deduce_format_dxt10_eq (s : DDSState) (res : Result) :
    (deduce_format_from_fourCC s res).1.header_DXT10 = s.header_DXT10 := by
  rw [deduce_format_from_fourCC]
  dsimp only
  split_ifs <;> simp [deduceSwitch_dxt10_eq]

/-- `calc_channel_info` never writes the extended header record. -/
theorem calc_channel_info_dxt10_eq (s : DDSState) (res : Result) :
    (calc_channel_info s res).1.header_DXT10 = s.header_DXT10 := rfl

/-- `colorTransformFixup` never writes the extended header record. -/
theorem colorTransformFixup_dxt10_eq (s : DDSState) :
    (colorTransformFixup s).header_DXT10 = s.header_DXT10 := rfl

/-- `deduce_bitmasks_from_pixel_format` never writes the extended header. -/
theorem deduce_bitmasks_dxt10_eq (s : DDSState) :
    (deduce_bitmasks_from_pixel_format s).header_DXT10 = s.header_DXT10 := by
  unfold deduce_bitmasks_from_pixel_format
  dsimp only
  split_ifs <;> rfl

/-- `verifyTail` preserves `array_size` (the palette-format arm rewrites only
the format field of the extended header). -/
theorem verifyTail_array_eq (s : DDSState) (res : Result) :
    (verifyTail s res).1.header_DXT10.array_size = s.header_DXT10.array_size := by
  unfold verifyTail
  split_ifs <;> rfl

/-- The deduction stages preserve `array_size`. -/
theorem verifyDeduce_array_eq (s : DDSState) :
    (verifyDeduce s).1.header_DXT10.array_size =
      (verifyFraming s).1.header_DXT10.array_size := by
  unfold verifyDeduce
  dsimp only
  by_cases hfr : (verifyFraming s).2.2 = true
  · rw [if_pos hfr]
  · rw [if_neg hfr]
    dsimp only
    split_ifs with hbm
    · rw [deduce_bitmasks_dxt10_eq]
      dsimp only
      have := deduce_format_dxt10_eq (verifyFraming s).1 (verifyFraming s).2.1
      rw [this]
    · dsimp only
      have := deduce_format_dxt10_eq (verifyFraming s).1 (verifyFraming s).2.1
      rw [this]

/-- After `verifyFraming`, no later stage of `verify_header` changes
`array_size`. -/
theorem verifyMain_array_eq (s : DDSState) :
    (verifyMain s).1.header_DXT10.array_size =
      (verifyFraming s).1.header_DXT10.array_size := by
  rw [← verifyDeduce_array_eq]
  unfold verifyMain
  dsimp only
  split_ifs with hd
  · rfl
  · rw [verifyTail_array_eq, colorTransformFixup_dxt10_eq, calc_channel_info_dxt10_eq]

/-- `verifySanitize` never writes the extended header record. -/
theorem verifySanitize_dxt10_eq (s : DDSState) :
    (verifySanitize s).1.header_DXT10 = s.header_DXT10 := by
  rw [verifySanitize]
  dsimp only
  split_ifs <;> rfl

/-- `verifySanitize` keeps the retained buffer. -/
theorem verifySanitize_dds_eq (s : DDSState) :
    (verifySanitize s).1.dds = s.dds := by
  rw [verifySanitize]
  dsimp only
  split_ifs <;> rfl

/-- `framingDims` keeps `array_size ≥ 1` when it starts ≥ 1 and the ×6
cube-map multiplication does not wrap. -/
theorem framingDims_array_ge_one (s : DDSState) (res : Result)
    (h1 : 1 ≤ s.header_DXT10.array_size)
    (hc : s.header_DXT10.array_size * 6 < u32) :
    1 ≤ (framingDims s res).1.header_DXT10.array_size := by
  rw [framingDims]
  dsimp only
  split_ifs <;> dsimp only <;>
    first
      | exact h1
      | omega
      | (rw [Nat.mod_eq_of_lt hc]; omega)

/-- The DX10 framing keeps `array_size ≥ 1` when it starts ≥ 1 and the ×6
cube-map multiplication does not wrap. -/
theorem framingDX10_array_ge_one (s : DDSState) (res : Result)
    (h1 : 1 ≤ s.header_DXT10.array_size)
    (hc : (parseHeaderDXT10 s.dds).array_size * 6 < u32) :
    1 ≤ (framingDX10 s res).1.header_DXT10.array_size := by
  rw [framingDX10]
  dsimp only
  split_ifs with hsz hz
  · exact h1
  · dsimp only
    refine framingDims_array_ge_one _ _ ?_ ?_ <;> dsimp only
    · omega
    · norm_num [u32]
  · dsimp only
    try dsimp only at hz
    refine framingDims_array_ge_one _ _ ?_ ?_ <;> dsimp only
    · omega
    · exact hc

/-- The DX9 framing keeps `array_size ≥ 1` when it starts ≥ 1. -/
theorem framingDX9_array_ge_one (s : DDSState) (res : Result)
    (h1 : 1 ≤ s.header_DXT10.array_size) :
    1 ≤ (framingDX9 s res).1.header_DXT10.array_size := by
  rw [framingDX9]
  dsimp only
  split_ifs <;> dsimp only <;> first | exact h1 | omega

/-- `verifyFraming` keeps `array_size ≥ 1` when it starts ≥ 1 and the ×6
cube-map multiplication does not wrap. -/
theorem verifyFraming_array_ge_one (s : DDSState)
    (h1 : 1 ≤ s.header_DXT10.array_size)
    (hc : (parseHeaderDXT10 s.dds).array_size * 6 < u32) :
    1 ≤ (verifyFraming s).1.header_DXT10.array_size := by
  rw [verifyFraming]
  try dsimp only
  split_ifs with h
  · refine framingDX10_array_ge_one _ _ ?_ ?_
    · rw [verifySanitize_dxt10_eq]
      exact h1
    · rw [verifySanitize_dds_eq]
      exact hc
  · refine framingDX9_array_ge_one _ _ ?_
    rw [verifySanitize_dxt10_eq]
    exact h1

/-- The break paths of the mip loop can zero `array_size` only at slice 0,
level 0, where nothing has been collected: if `popMips`'s result has
`array_size = 0`, the collected list is still the incoming one and empty.
The hypotheses are the call-site invariants: entries already collected force
`0 < j + i`, and the slice loop only runs with `j < array_size`. -/
theorem popMips_array_zero_imgs_nil :
    ∀ fuel s j w h d i srcOff acc res,
      (acc ≠ [] → 0 < j + i) →
      j < s.header_DXT10.array_size →
      (popMips s j w h d i fuel srcOff acc res).st.header_DXT10.array_size = 0 →
      (popMips s j w h d i fuel srcOff acc res).imgs = [] := by
  intro fuel
  induction fuel with
  | zero =>
    intro s j w h d i srcOff acc res hacc hj h0
    dsimp only [popMips] at h0 ⊢
    exfalso
    omega
  | succ fuel ih =>
    intro s j w h d i srcOff acc res hacc hj h0
    rw [popMips] at h0 ⊢
    by_cases hmip : i < s.header.mipmap_count
    · rw [if_pos hmip] at h0 ⊢
      by_cases hz : (image_data_size s w h d res).1 = 0
      · rw [if_pos hz] at h0 ⊢
        dsimp only at h0 ⊢
        by_cases hnil : acc = []
        · exact hnil
        · exfalso
          have h2 := hacc hnil
          split_ifs at h0 <;> omega
      · rw [if_neg hz] at h0 ⊢
        by_cases hbig : s.dds.length - srcOff < (image_data_size s w h d res).1
        · rw [if_pos hbig] at h0 ⊢
          dsimp only at h0 ⊢
          by_cases hnil : acc = []
          · exact hnil
          · exfalso
            have h2 := hacc hnil
            split_ifs at h0 <;> omega
        · rw [if_neg hbig] at h0 ⊢
          by_cases h16 : (image_data_size s w h d res).1 / w / h / d > 16
          · rw [if_pos h16] at h0 ⊢
            dsimp only at h0 ⊢
            by_cases hnil : acc = []
            · exact hnil
            · exfalso
              have h2 := hacc hnil
              split_ifs at h0 <;> omega
          · rw [if_neg h16] at h0 ⊢
            exact ih s j _ _ _ (i + 1) _ _ _ (fun _ => by omega) hj h0
    · rw [if_neg hmip] at h0 ⊢
      dsimp only at h0 ⊢
      exfalso
      omega

/-- Through the slice loop: a result that still holds collected images always
has `array_size ≥ 1`. -/
theorem popSlices_imgs_ne_nil_array :
    ∀ fuel s j srcOff acc res,
      (acc ≠ [] → 0 < j) →
      (s.header_DXT10.array_size = 0 → acc = []) →
      (popSlices s j fuel srcOff acc res).imgs ≠ [] →
      1 ≤ (popSlices s j fuel srcOff acc res).st.header_DXT10.array_size := by
  intro fuel
  induction fuel with
  | zero =>
    intro s j srcOff acc res hj hS hne
    dsimp [popSlices] at hne ⊢
    rcases Nat.eq_zero_or_pos s.header_DXT10.array_size with h0 | h0
    · exact absurd (hS h0) hne
    · exact h0
  | succ fuel ih =>
    intro s j srcOff acc res hj hS hne
    rw [popSlices] at hne ⊢
    by_cases hcond : j < s.header_DXT10.array_size
    · rw [if_pos hcond] at hne ⊢
      refine ih _ _ _ _ _ (fun _ => by omega) ?_ hne
      intro h0
      exact popMips_array_zero_imgs_nil _ s j _ _ _ 0 _ _ _
        (fun ha => by have := hj ha; omega) hcond h0
    · rw [if_neg hcond] at hne ⊢
      dsimp at hne ⊢
      rcases Nat.eq_zero_or_pos s.header_DXT10.array_size with h0 | h0
      · exact absurd (hS h0) hne
      · exact h0


/-- `verifySanitize` keeps the pixel format. -/
theorem verifySanitize_pf_eq (s : DDSState) :
    (verifySanitize s).1.header.pixel_format = s.header.pixel_format := by
  rw [verifySanitize]
  dsimp only
  split_ifs <;> rfl

/-- `finalizePop` changes only the diagnostics. -/
theorem finalizePop_st_imgs (r : PopOut) :
    (finalizePop r).st = r.st ∧ (finalizePop r).imgs = r.imgs := by
  unfold finalizePop
  split_ifs <;> exact ⟨rfl, rfl⟩

/-- `framingDims` on a Texture2D cube map: the ×6 multiplication, modulo the
32-bit width of `arraySize`. -/
theorem framingDims_cube2d_array (s : DDSState) (res : Result)
    (hdim : s.header_DXT10.resource_dimension = Texture2D)
    (hcube : s.header_DXT10.misc_flag &&& miscTextureCube ≠ 0) :
    (framingDims s res).1.header_DXT10.array_size =
      s.header_DXT10.array_size * 6 % u32 := by
  rw [framingDims]
  rw [if_neg (by rw [hdim]; norm_num [Texture1D, Texture2D]), if_pos hdim]
  dsimp only
  rw [if_pos hcube]

/-- The DX10 framing on a Texture2D cube map: the raw extended-header
`array_size` is first corrected 0 → 1, then multiplied by 6. -/
theorem framingDX10_cube_array (s : DDSState) (res : Result)
    (hlen : 148 < s.dds.length)
    (hdim : (parseHeaderDXT10 s.dds).resource_dimension = Texture2D)
    (hcube : (parseHeaderDXT10 s.dds).misc_flag &&& miscTextureCube ≠ 0) :
    (framingDX10 s res).1.header_DXT10.array_size =
      (if (parseHeaderDXT10 s.dds).array_size = 0 then 1
       else (parseHeaderDXT10 s.dds).array_size) * 6 % u32 := by
  rw [framingDX10]
  dsimp only
  rw [if_neg (by omega)]
  dsimp only
  split_ifs with hz
  · rw [framingDims_cube2d_array _ _ (by simpa using hdim) (by simpa using hcube)]
  · rw [framingDims_cube2d_array _ _ (by simpa using hdim) (by simpa using hcube)]

/-- `verifyFraming` on a fourCC `"DX10"` Texture2D cube map: the stored
`array_size` is the 0-corrected raw value times 6. -/
theorem verifyFraming_cube_array (s : DDSState)
    (hflag : s.header.pixel_format.flags &&& flagFourCC ≠ 0)
    (hfour : s.header.pixel_format.fourCC = FOURCC_DX10)
    (hlen : 148 < s.dds.length)
    (hdim : (parseHeaderDXT10 s.dds).resource_dimension = Texture2D)
    (hcube : (parseHeaderDXT10 s.dds).misc_flag &&& miscTextureCube ≠ 0) :
    (verifyFraming s).1.header_DXT10.array_size =
      (if (parseHeaderDXT10 s.dds).array_size = 0 then 1
       else (parseHeaderDXT10 s.dds).array_size) * 6 % u32 := by
  rw [verifyFraming]
  try dsimp only
  have hd := verifySanitize_dds_eq s
  split_ifs with h hz h2
  · rw [framingDX10_cube_array _ _ (by rw [hd]; exact hlen) (by rw [hd]; exact hdim)
        (by rw [hd]; exact hcube), hd, if_pos hz]
  · rw [framingDX10_cube_array _ _ (by rw [hd]; exact hlen) (by rw [hd]; exact hdim)
        (by rw [hd]; exact hcube), hd, if_neg hz]
  all_goals
    exact (h ⟨by simp only [verifySanitize_pf_eq, ne_eq, decide_eq_true_eq]; exact hflag,
      by rw [verifySanitize_pf_eq]; exact hfour⟩).elim

/-- **C8 (amended).** (a) After `load`/`verify_header`, the stored
`array_size` is at least 1, provided the ×6 cube-map multiplication does not
wrap the 32-bit field.  (b) After `populate_image_data`, the stored
`array_size` is at least 1 provided at least one `ImageData` entry was
produced (a populate that collects nothing — the fatal `NoImageDataError`
case — can leave it 0, as `c8_array_size_zero_after_populate` shows).
(c) On the DX10 Texture2D cube-map path, a raw extended-header `array_size`
of 0 is corrected to 1 and cube-map detection multiplies the stored value
by 6. -/
theorem c8_array_size_invariant :
    (∀ s : DDSState, 1 ≤ s.header_DXT10.array_size →
      (parseHeaderDXT10 s.dds).array_size * 6 < u32 →
      1 ≤ (verify_header s).1.header_DXT10.array_size) ∧
    (∀ s : DDSState, (populate_image_data s).imgs ≠ [] →
      1 ≤ (populate_image_data s).st.header_DXT10.array_size) ∧
    (∀ s : DDSState, s.header_verified = false →
      s.header.pixel_format.flags &&& flagFourCC ≠ 0 →
      s.header.pixel_format.fourCC = FOURCC_DX10 →
      148 < s.dds.length →
      (parseHeaderDXT10 s.dds).resource_dimension = Texture2D →
      (parseHeaderDXT10 s.dds).misc_flag &&& miscTextureCube ≠ 0 →
      (verify_header s).1.header_DXT10.array_size =
        (if (parseHeaderDXT10 s.dds).array_size = 0 then 1
         else (parseHeaderDXT10 s.dds).array_size) * 6 % u32) := by
  refine ⟨?_, ?_, ?_⟩
  · intro s h1 hc
    rw [verify_header]
    split_ifs with hv
    · exact h1
    · rw [verifyMain_array_eq]
      exact verifyFraming_array_ge_one s h1 hc
  · intro s hne
    rw [populate_image_data] at hne ⊢
    dsimp only at hne ⊢
    split_ifs at hne ⊢ with ht
    · exact absurd rfl hne
    all_goals
      rw [(finalizePop_st_imgs _).1]
      rw [(finalizePop_st_imgs _).2] at hne
      exact popSlices_imgs_ne_nil_array _ _ _ _ _ _
        (fun hx => absurd rfl hx) (fun _ => rfl) hne
  · intro s hv hflag hfour hlen hdim hcube
    rw [verify_header, if_neg (by simp [hv])]
    rw [verifyMain_array_eq]
    exact verifyFraming_cube_array s hflag hfour hlen hdim hcube

/-- Witness for C8 (amended), at the concrete cube-map file `c8CubeBuffer`
(raw array_size 2, so ×6 gives 12) and at the loaded `c2State`
(whose populate keeps two entries). -/
theorem c8_array_size_invariant_witness :
    (1 ≤ (verify_header (initState c8CubeBuffer)).1.header_DXT10.array_size) ∧
    (1 ≤ (populate_image_data c2State).st.header_DXT10.array_size) ∧
    ((verify_header (initState c8CubeBuffer)).1.header_DXT10.array_size =
      (if (parseHeaderDXT10 c8CubeBuffer).array_size = 0 then 1
       else (parseHeaderDXT10 c8CubeBuffer).array_size) * 6 % u32) :=
  ⟨c8_array_size_invariant.1 (initState c8CubeBuffer) (by decide) (by decide),
   c8_array_size_invariant.2.1 c2State (by decide),
   c8_array_size_invariant.2.2 (initState c8CubeBuffer) (by decide) (by decide)
     (by decide) (by decide) (by decide) (by decide)⟩

/-! ## C7: support lemmas and the amended precedence statement -/

/-- Masking with the Luminance flag bit is testing bit 17. -/
theorem and_luminance_ne_zero (a : Nat) :
    a &&& flagLuminance ≠ 0 ↔ a.testBit 17 = true := by
  have h : flagLuminance = 2 ^ 17 := by norm_num [flagLuminance]
  rw [h, Nat.and_two_pow]
  cases hb : a.testBit 17 <;> simp [hb]

/-- `framingDims` keeps the pixel format. -/
theorem framingDims_pf_eq (s : DDSState) (res : Result) :
    (framingDims s res).1.header.pixel_format = s.header.pixel_format := by
  rw [framingDims]
  split_ifs <;> rfl

/-- The DX10 framing keeps the pixel format. -/
theorem framingDX10_pf_eq (s : DDSState) (res : Result) :
    (framingDX10 s res).1.header.pixel_format = s.header.pixel_format := by
  rw [framingDX10]
  dsimp only
  split_ifs with h1 h2 <;> try rfl
  all_goals
    dsimp only
    rw [framingDims_pf_eq]

/-- The DX9 framing keeps the pixel format. -/
theorem framingDX9_pf_eq (s : DDSState) (res : Result) :
    (framingDX9 s res).1.header.pixel_format = s.header.pixel_format := by
  rw [framingDX9]
  dsimp only
  split_ifs <;> rfl

/-- `verifyFraming` keeps the pixel format. -/
theorem verifyFraming_pf_eq (s : DDSState) :
    (verifyFraming s).1.header.pixel_format = s.header.pixel_format := by
  rw [verifyFraming]
  try dsimp only
  split_ifs with h
  · rw [framingDX10_pf_eq, verifySanitize_pf_eq]
  · rw [framingDX9_pf_eq, verifySanitize_pf_eq]

/-- `dx10FormatFixup` rewrites channel masks and bit counts but never the
pixel-format flag word. -/
theorem dx10FormatFixup_flags_eq (s : DDSState) :
    (dx10FormatFixup s).header.pixel_format.flags = s.header.pixel_format.flags := by
  simp only [dx10FormatFixup, setPFMasks, setPFMasks3,
    apply_ite (fun st : DDSState => st.header.pixel_format.flags), ite_self]

/-- Masking off the top bit (the `RXGB` normal-map cleanup) keeps bit 17. -/
theorem and_top_mask_testBit17 (a : Nat) :
    (a &&& 0x7FFFFFFF).testBit 17 = a.testBit 17 := by
  rw [Nat.testBit_and]
  have h : Nat.testBit 0x7FFFFFFF 17 = true := by decide
  rw [h, Bool.and_true]

/-- The fourCC dispatch can clear the pixel-format `Normal` bit (RXGB) but
keeps the Luminance bit (bit 17) of the flag word. -/
theorem deduceSwitch_flags17 (s : DDSState) (res : Result) (c : Nat) :
    (deduceSwitch s res c).1.header.pixel_format.flags.testBit 17 =
      s.header.pixel_format.flags.testBit 17 := by
  rw [deduceSwitch]
  simp only
    [apply_ite (fun p : DDSState × Result × Nat => p.1.header.pixel_format.flags.testBit 17),
     dx10FormatFixup_flags_eq, setPFMasks, setPFMasks3, and_top_mask_testBit17, ite_self]

/-- ORing in the fourCC flag bit (bit 2, the non-conforming-writer fix-up)
keeps bit 17. -/
theorem or_fourCC_testBit17 (a : Nat) :
    (a ||| flagFourCC).testBit 17 = a.testBit 17 := by
  rw [Nat.testBit_or]
  have h : Nat.testBit flagFourCC 17 = false := by decide
  rw [h, Bool.or_false]

/-- `deduce_format_from_fourCC` keeps bit 17 of the pixel-format flag word. -/
theorem deduce_format_flags17 (s : DDSState) (res : Result) :
    (deduce_format_from_fourCC s res).1.header.pixel_format.flags.testBit 17 =
      s.header.pixel_format.flags.testBit 17 := by
  rw [deduce_format_from_fourCC]
  dsimp only
  split_ifs <;>
    simp [deduceSwitch_flags17, or_fourCC_testBit17,
      show Nat.testBit flagFourCC 17 = false from by decide]

/-- The bitmask fallback never writes the header. -/
theorem deduce_bitmasks_header_eq (s : DDSState) :
    (deduce_bitmasks_from_pixel_format s).header = s.header := by
  unfold deduce_bitmasks_from_pixel_format
  dsimp only
  split_ifs <;> rfl

/-- Every stage up to and including the format deduction keeps bit 17 (the
Luminance bit) of the pixel-format flag word. -/
theorem verifyDeduce_flags17 (s : DDSState) :
    (verifyDeduce s).1.header.pixel_format.flags.testBit 17 =
      s.header.pixel_format.flags.testBit 17 := by
  unfold verifyDeduce
  dsimp only
  split_ifs with h1 h2
  · rw [verifyFraming_pf_eq]
  · rw [deduce_bitmasks_header_eq]
    dsimp only
    rw [deduce_format_flags17, verifyFraming_pf_eq]
  · dsimp only
    rw [deduce_format_flags17, verifyFraming_pf_eq]

/-- `calc_channel_info` never writes the header. -/
theorem calc_channel_info_header_eq (s : DDSState) (res : Result) :
    (calc_channel_info s res).1.header = s.header := rfl

/-- `calc_channel_info` never writes `bitmasked`. -/
theorem calc_channel_info_bitmasked_eq (s : DDSState) (res : Result) :
    (calc_channel_info s res).1.bitmasked = s.bitmasked := rfl

/-- The final palette-format / bpp checks never write the color transform. -/
theorem verifyTail_ct_eq (s : DDSState) (res : Result) :
    (verifyTail s res).1.color_transform = s.color_transform := by
  unfold verifyTail
  split_ifs <;> rfl

/-- The color-transform block under the Luminance flag: the flag forces
`eLuminance` over any earlier swizzle / YUV / fourCC assignment, but the
trailing swap-RB family check still overrides it. -/
theorem colorTransformFixup_luminance (s : DDSState)
    (hl : s.header.pixel_format.flags &&& flagLuminance ≠ 0) :
    (colorTransformFixup s).color_transform =
      if s.bitmasked = false ∧ s.header_DXT10.format ∈ swapRBFormats
      then ColorTransform.eSwapRB else ColorTransform.eLuminance := by
  rw [colorTransformFixup]
  dsimp only
  rw [if_pos hl]

/-- **C7 (amended).** For a not-yet-verified state whose pixel-format
Luminance flag bit is set and whose framing does not fail early, header
verification ends with `eLuminance` — overriding any earlier swizzle-code,
YUV-flag or fourCC-dispatch assignment — UNLESS the state reaching the final
block is non-bitmasked with a deduced BGRA-family format, in which case the
later swap-RB family assignment overrides the Luminance one. -/
theorem c7_amended (s : DDSState)
    (hv : s.header_verified = false)
    (he : (verifyDeduce s).2.2 = false)
    (hl : s.header.pixel_format.flags &&& flagLuminance ≠ 0) :
    (verify_header s).1.color_transform =
      if (verifyDeduce s).1.bitmasked = false ∧
         (verifyDeduce s).1.header_DXT10.format ∈ swapRBFormats
      then ColorTransform.eSwapRB else ColorTransform.eLuminance := by
  rw [verify_header, if_neg (by simp [hv])]
  rw [verifyMain]
  dsimp only
  rw [if_neg (by simp [he])]
  rw [verifyTail_ct_eq]
  rw [colorTransformFixup_luminance _ (by
    rw [and_luminance_ne_zero, calc_channel_info_header_eq, verifyDeduce_flags17]
    rw [and_luminance_ne_zero] at hl
    exact hl)]
  rw [calc_channel_info_bitmasked_eq]
  rfl

/-- Witness for C7 (amended), at the parsed-but-unverified state of
`c7Buffer` (a DX10 `B8G8R8A8_UNorm` file with the Luminance flag bit set):
the swap-RB condition holds there, so the final transform is `eSwapRB`. -/
theorem c7_amended_witness :
    (verify_header (initState c7Buffer)).1.color_transform =
      if (verifyDeduce (initState c7Buffer)).1.bitmasked = false ∧
         (verifyDeduce (initState c7Buffer)).1.header_DXT10.format ∈ swapRBFormats
      then ColorTransform.eSwapRB else ColorTransform.eLuminance :=
  c7_amended (initState c7Buffer) (by rfl) (by rfl) (by decide)

/-! ## C1: support lemmas for the fully-fitting R8G8B8A8 mip chain -/

/-- `numBytesForFormat` at `R8G8B8A8_UNorm` takes the dense
`(bpp·pixels+7)/8` base case. -/
theorem numBytesForFormat_28 (w h d : Nat) :
    numBytesForFormat R8G8B8A8_UNorm 32 w h d =
      (32 * (w * h % u32) % u32 + 7) % u32 / 8 := by
  rw [numBytesForFormat]
  try dsimp only
  rw [if_neg (by decide), if_neg (by decide), if_neg (by decide), if_neg (by decide),
      if_neg (by decide), if_neg (by decide), if_neg (by decide), if_neg (by decide),
      if_neg (by decide), if_neg (by decide), if_neg (by decide), if_neg (by decide),
      if_neg (by decide), if_neg (by decide), if_neg (by decide), if_neg (by decide),
      if_neg (by decide), if_neg (by decide), if_neg (by decide), if_neg (by decide),
      if_neg (by decide)]

/-- `image_data_size` for a non-bitmasked `R8G8B8A8_UNorm` level whose pixel
count does not overflow: `4·w·h` bytes, no diagnostics, provided the explicit
`bit_count` field is consistent (32) or absent (0) so that the uncompressed
cross-check does not override the computed size. -/
theorem image_data_size_r8g8b8a8 (s : DDSState) (w h : Nat) (res : Result)
    (hbm : s.bitmasked = false)
    (hfmt : s.header_DXT10.format = R8G8B8A8_UNorm)
    (hbpp : s.bpp = 32)
    (hbc : s.header.pixel_format.bit_count = 32 ∨ s.header.pixel_format.bit_count = 0)
    (hw : 1 ≤ w) (hh : 1 ≤ h)
    (hfit : 32 * (w * h) + 7 < u32) :
    image_data_size s w h 1 res = (4 * (w * h), res) := by
  have hU : u32 = 4294967296 := rfl
  have hwh0 : 0 < w * h := Nat.mul_pos hw hh
  have hwhm : w * h % u32 = w * h := Nat.mod_eq_of_lt (by omega)
  rw [image_data_size]
  dsimp only
  rw [hfmt, hbpp, hwhm]
  rw [if_pos ⟨hbm, by decide⟩]
  rw [numBytesForFormat_28, hwhm]
  rw [show 32 * (w * h) % u32 = 32 * (w * h) from Nat.mod_eq_of_lt (by omega)]
  rw [show (32 * (w * h) + 7) % u32 = 32 * (w * h) + 7 from Nat.mod_eq_of_lt (by omega)]
  rw [show (32 * (w * h) + 7) / 8 = 4 * (w * h) from by omega]
  rw [if_pos (show is_compressed R8G8B8A8_UNorm = false from by decide)]
  try dsimp only
  rw [show 4 * (w * h) / (w * h) = 4 from by
    rw [Nat.mul_div_assoc 4 dvd_rfl, Nat.div_self hwh0, Nat.mul_one]]
  rcases hbc with hbc | hbc
  · rw [hbc]
    rw [if_neg (by norm_num)]
    dsimp only
    rw [Nat.mul_one, Nat.mod_eq_of_lt (by omega)]
  · rw [hbc]
    rw [if_neg (by norm_num)]
    dsimp only
    rw [Nat.mul_one, Nat.mod_eq_of_lt (by omega)]

/-- Halving with floor 1 iterated is division by a power of two, floor 1. -/
theorem max_one_div_pow_step (w i : Nat) (hw : 1 ≤ w) :
    max 1 (max 1 (w / 2) / 2 ^ i) = max 1 (w / 2 ^ (i + 1)) := by
  by_cases h2 : w / 2 = 0
  · have hw1 : w = 1 := by omega
    subst hw1
    have hpow : (2 : Nat) ^ 1 ≤ 2 ^ (i + 1) := Nat.pow_le_pow_right (by omega) (by omega)
    rw [pow_one] at hpow
    have hi : 1 / 2 ^ (i + 1) = 0 := Nat.div_eq_of_lt (by omega)
    rcases Nat.eq_zero_or_pos i with hi0 | hi0
    · subst hi0
      simp
    · have h1i : 1 / 2 ^ i = 0 :=
        Nat.div_eq_of_lt (Nat.one_lt_two_pow_iff.mpr (by omega))
      simp [h2, hi, h1i]
  · rw [Nat.max_eq_right (by omega : 1 ≤ w / 2), Nat.div_div_eq_div_mul]
    rw [show 2 ^ (i + 1) = 2 * 2 ^ i from by rw [pow_succ, Nat.mul_comm]]

/-- `levelsFrom` produces one entry per level. -/
theorem levelsFrom_length : ∀ n w h o, (levelsFrom w h o n).length = n := by
  intro n
  induction n with
  | zero => intro w h o; rfl
  | succ n ih => intro w h o; simp [levelsFrom, ih]

/-- The `i`-th entry of `levelsFrom`: dimensions `max 1 (w / 2^i)` by
`max 1 (h / 2^i)` and byte size 4 times their product. -/
theorem levelsFrom_getD :
    ∀ n i w h o, i < n → 1 ≤ w → 1 ≤ h →
      ((levelsFrom w h o n).getD i ⟨0, 0, 0, 0, 0⟩).width = max 1 (w / 2 ^ i) ∧
      ((levelsFrom w h o n).getD i ⟨0, 0, 0, 0, 0⟩).height = max 1 (h / 2 ^ i) ∧
      ((levelsFrom w h o n).getD i ⟨0, 0, 0, 0, 0⟩).size =
        4 * (max 1 (w / 2 ^ i) * max 1 (h / 2 ^ i)) := by
  intro n
  induction n with
  | zero =>
    intro i w h o hi hw hh
    exact absurd hi (Nat.not_lt_zero i)
  | succ n ih =>
    intro i w h o hi hw hh
    cases i with
    | zero =>
      refine ⟨?_, ?_, ?_⟩ <;>
        simp [levelsFrom, Nat.max_eq_right hw, Nat.max_eq_right hh]
    | succ i =>
      have h2 := ih i (max 1 (w / 2)) (max 1 (h / 2)) (o + 4 * (w * h))
        (by omega) (le_max_left 1 _) (le_max_left 1 _)
      rw [max_one_div_pow_step w i hw, max_one_div_pow_step h i hh] at h2
      simpa [levelsFrom, List.getD_cons_succ] using h2

/-- The mip loop of `populate_image_data` on a non-bitmasked
`R8G8B8A8_UNorm` state, when the buffer holds every remaining level in full:
no break fires, the state is returned untouched, and the collected entries
are exactly the `levelsFrom` chain. -/
theorem popMips_all_fit (s : DDSState)
    (hbm : s.bitmasked = false)
    (hfmt : s.header_DXT10.format = R8G8B8A8_UNorm)
    (hbpp : s.bpp = 32)
    (hbc : s.header.pixel_format.bit_count = 32 ∨ s.header.pixel_format.bit_count = 0) :
    ∀ n f j w h i srcOff acc res,
      i + n = s.header.mipmap_count →
      1 ≤ w → 1 ≤ h →
      32 * (w * h) + 7 < u32 →
      srcOff + sizeFrom w h n ≤ s.dds.length →
      popMips s j w h 1 i (n + f) srcOff acc res =
        ⟨s, srcOff + sizeFrom w h n, acc ++ levelsFrom w h srcOff n, res⟩ := by
  intro n
  induction n with
  | zero =>
    intro f j w h i srcOff acc res hi hw hh hfit hlen
    simp only [Nat.zero_add]
    cases f with
    | zero =>
      rw [popMips]
      simp [sizeFrom, levelsFrom]
    | succ f =>
      rw [popMips, if_neg (by omega)]
      simp [sizeFrom, levelsFrom]
  | succ n ih =>
    intro f j w h i srcOff acc res hi hw hh hfit hlen
    have hU : u32 = 4294967296 := rfl
    have hwh0 : 0 < w * h := Nat.mul_pos hw hh
    have hsz : sizeFrom w h (n + 1) =
        4 * (w * h) + sizeFrom (max 1 (w / 2)) (max 1 (h / 2)) n := rfl
    rw [show n + 1 + f = (n + f) + 1 from by omega, popMips]
    rw [if_pos (by omega)]
    dsimp only
    rw [image_data_size_r8g8b8a8 s w h res hbm hfmt hbpp hbc hw hh hfit]
    dsimp only
    rw [if_neg (by omega : ¬ (4 * (w * h) = 0))]
    rw [if_neg (by omega : ¬ (s.dds.length - srcOff < 4 * (w * h)))]
    rw [if_neg (by
      rw [show 4 * (w * h) / w / h / 1 = 4 from by
        rw [Nat.div_one, show 4 * (w * h) = w * (4 * h) from by ring,
          Nat.mul_div_cancel_left _ (by omega : 0 < w),
          show 4 * h = h * 4 from by ring,
          Nat.mul_div_cancel_left _ (by omega : 0 < h)]]
      omega)]
    rw [show (max 1 (1 / 2) : Nat) = 1 from rfl]
    have hle : max 1 (w / 2) * max 1 (h / 2) ≤ w * h :=
      Nat.mul_le_mul
        (Nat.max_le.mpr ⟨hw, Nat.div_le_self w 2⟩)
        (Nat.max_le.mpr ⟨hh, Nat.div_le_self h 2⟩)
    have hrec := ih f j (max 1 (w / 2)) (max 1 (h / 2)) (i + 1) (srcOff + 4 * (w * h))
      (acc ++ [⟨w, h, 1, srcOff, 4 * (w * h)⟩]) res
      (by omega) (le_max_left 1 _) (le_max_left 1 _) (by omega) (by omega)
    rw [hrec]
    simp [sizeFrom, levelsFrom, Nat.add_assoc]

/-- One pass of the slice loop when `array_size` is exactly 1: the loop body
runs once and the result is the inner mip loop's. -/
theorem popSlices_one (s : DDSState) (srcOff : Nat) (acc : List ImageDataM)
    (res : Result) (h1 : s.header_DXT10.array_size = 1) :
    popSlices s 0 1 srcOff acc res =
      popMips s 0 s.header.width s.header.height s.header.depth 0
        s.header.mipmap_count srcOff acc res := by
  show popSlices s 0 (0 + 1) srcOff acc res = _
  rw [popSlices]
  rw [if_pos (by omega : 0 < s.header_DXT10.array_size)]
  dsimp only
  rw [popSlices]

/-- **C1 (amended).** For a verified (`m_header_verified`) extended-header
`R8G8B8A8_UNorm` state with `array_size = 1`, depth 1, a non-wrapping pixel
count, a `bit_count` field that is consistent (32) or absent (0), and a
buffer large enough for every declared level, `populate_image_data` produces
exactly `mipmap_count` entries, in mip order, where level `i` measures
`max 1 (width / 2^i)` by `max 1 (height / 2^i)` pixels and occupies 4 bytes
per pixel.  (Without the `bit_count ∈ {32, 0}` proviso the claim fails:
`c1_bit_count_overrides_size` shows a `bit_count` of 16 overriding the
computed level size.) -/
theorem c1_amended (s : DDSState)
    (hver : s.header_verified = true)
    (hdxt : s.has_DXT10_header = true)
    (hfmt : s.header_DXT10.format = R8G8B8A8_UNorm)
    (harr : s.header_DXT10.array_size = 1)
    (hbm : s.bitmasked = false)
    (hbpp : s.bpp = 32)
    (hbc : s.header.pixel_format.bit_count = 32 ∨ s.header.pixel_format.bit_count = 0)
    (hdep : s.header.depth = 1)
    (hm : 1 ≤ s.header.mipmap_count)
    (hw : 1 ≤ s.header.width) (hh : 1 ≤ s.header.height)
    (hfit : 32 * (s.header.width * s.header.height) + 7 < u32)
    (hlen : 148 + sizeFrom s.header.width s.header.height s.header.mipmap_count ≤
      s.dds.length) :
    (populate_image_data s).imgs.length = s.header.mipmap_count ∧
    ∀ i, i < s.header.mipmap_count →
      ((populate_image_data s).imgs.getD i ⟨0, 0, 0, 0, 0⟩).width =
        max 1 (s.header.width / 2 ^ i) ∧
      ((populate_image_data s).imgs.getD i ⟨0, 0, 0, 0, 0⟩).height =
        max 1 (s.header.height / 2 ^ i) ∧
      ((populate_image_data s).imgs.getD i ⟨0, 0, 0, 0, 0⟩).size =
        4 * (max 1 (s.header.width / 2 ^ i) * max 1 (s.header.height / 2 ^ i)) := by
  have hmip := popMips_all_fit s hbm hfmt hbpp hbc s.header.mipmap_count 0 0
    s.header.width s.header.height 0 (4 + 124 + 20) [] ⟨sevSuccess⟩
    (by omega) hw hh hfit (by omega)
  rw [Nat.add_zero, List.nil_append] at hmip
  have hne : levelsFrom s.header.width s.header.height (4 + 124 + 20)
      s.header.mipmap_count ≠ [] := by
    obtain ⟨m, hm2⟩ : ∃ m, s.header.mipmap_count = m + 1 :=
      ⟨s.header.mipmap_count - 1, by omega⟩
    rw [hm2]
    simp [levelsFrom]
  have hpop : populate_image_data s =
      ⟨s, 4 + 124 + 20 + sizeFrom s.header.width s.header.height s.header.mipmap_count,
        levelsFrom s.header.width s.header.height (4 + 124 + 20) s.header.mipmap_count,
        ⟨sevSuccess⟩⟩ := by
    rw [populate_image_data]
    dsimp only
    rw [verify_header, if_pos hver]
    try dsimp only
    rw [if_neg (by simp)]
    try dsimp only
    rw [if_pos hdxt]
    rw [harr, popSlices_one s _ _ _ harr, hdep, hmip]
    rw [finalizePop, if_neg (by simpa using hne)]
  rw [hpop]
  dsimp only
  refine ⟨levelsFrom_length _ _ _ _, ?_⟩
  intro i hi
  exact levelsFrom_getD _ i _ _ _ hi hw hh

/-- Witness for C1 (amended), at the loaded state of `c1OkBuffer`
(4×4, two mips, 80 payload bytes): two entries, 4×4×4 = 64 bytes then
2×2×4 = 16 bytes. -/
theorem c1_amended_witness :
    (populate_image_data c1State).imgs.length = c1State.header.mipmap_count ∧
    ∀ i, i < c1State.header.mipmap_count →
      ((populate_image_data c1State).imgs.getD i ⟨0, 0, 0, 0, 0⟩).width =
        max 1 (c1State.header.width / 2 ^ i) ∧
      ((populate_image_data c1State).imgs.getD i ⟨0, 0, 0, 0, 0⟩).height =
        max 1 (c1State.header.height / 2 ^ i) ∧
      ((populate_image_data c1State).imgs.getD i ⟨0, 0, 0, 0, 0⟩).size =
        4 * (max 1 (c1State.header.width / 2 ^ i) *
          max 1 (c1State.header.height / 2 ^ i)) :=
  c1_amended c1State (by decide) (by decide) (by decide) (by decide) (by decide)
    (by decide) (Or.inr (by decide)) (by decide) (by decide) (by decide)
    (by decide) (by decide) (by decide)
end Smalldds

namespace Tinydds

open Smalldds

/-! ## C3 support: the splice algebra and the block involutions -/

/-- A splice result is a byte. -/
theorem splice_lt (x y : Nat) : splice x y < 256 :=
  Nat.mod_lt _ (by norm_num)

/-- The splice in plain arithmetic: low nibble from the high nibble of `x`,
high nibble from the low nibble of `y`. -/
theorem splice_eq (x y : Nat) (hx : x < 256) :
    splice x y = x / 16 + 16 * (y % 16) := by
  unfold splice
  rw [Nat.shiftRight_eq_div_pow, Nat.shiftLeft_eq]
  rw [show y * 2 ^ 4 = 2 ^ 4 * y from Nat.mul_comm _ _]
  rw [Nat.lor_comm]
  rw [← Nat.mul_add_lt_is_or (by norm_num; omega : x / 2 ^ 4 < 2 ^ 4) y]
  norm_num
  omega

/-- The splice chains of the two-fold flips cancel: the nibbles of `a` come
back together. -/
theorem splice_splice (a b c : Nat) (ha : a < 256) (hb : b < 256) :
    splice (splice b a) (splice a c) = a := by
  rw [splice_eq _ _ (splice_lt b a), splice_eq _ _ hb, splice_eq _ _ ha]
  omega

/-- The height-2 BC1 transform is an involution. -/
theorem bc1H2_invol (b : BC1Block) : bc1H2 (bc1H2 b) = b := rfl

/-- The full BC1 transform is an involution. -/
theorem bc1Full_invol (b : BC1Block) : bc1Full (bc1Full b) = b := rfl

/-- The height-2 BC2 transform is an involution. -/
theorem bc2H2_invol (b : BC2Block) : bc2H2 (bc2H2 b) = b := rfl

/-- The full BC2 transform is an involution. -/
theorem bc2Full_invol (b : BC2Block) : bc2Full (bc2Full b) = b := rfl

/-- The height-2 BC3 transform is an involution on byte-valued blocks. -/
theorem bc3H2_invol (b : BC3Block) (hb : bc3Bounded b = true) :
    bc3H2 (bc3H2 b) = b := by
  simp only [bc3Bounded, Bool.and_eq_true, decide_eq_true_eq] at hb
  obtain ⟨⟨⟨⟨⟨h0, h1⟩, h2⟩, h3⟩, h4⟩, h5⟩ := hb
  ext <;> simp only [bc3H2] <;>
    first
      | rfl
      | (apply splice_splice <;> assumption)

/-- The full BC3 transform is an involution on byte-valued blocks. -/
theorem bc3Full_invol (b : BC3Block) (hb : bc3Bounded b = true) :
    bc3Full (bc3Full b) = b := by
  simp only [bc3Bounded, Bool.and_eq_true, decide_eq_true_eq] at hb
  obtain ⟨⟨⟨⟨⟨h0, h1⟩, h2⟩, h3⟩, h4⟩, h5⟩ := hb
  ext <;> simp only [bc3Full] <;>
    first
      | rfl
      | (apply splice_splice <;> assumption)

/-- The height-2 BC4 transform is an involution on byte-valued blocks. -/
theorem bc4H2_invol (b : BC4Block) (hb : bc4Bounded b = true) :
    bc4H2 (bc4H2 b) = b := by
  simp only [bc4Bounded, Bool.and_eq_true, decide_eq_true_eq] at hb
  obtain ⟨⟨⟨⟨⟨h0, h1⟩, h2⟩, h3⟩, h4⟩, h5⟩ := hb
  ext <;> simp only [bc4H2] <;>
    first
      | rfl
      | (apply splice_splice <;> assumption)

/-- The full BC4 transform is an involution on byte-valued blocks. -/
theorem bc4Full_invol (b : BC4Block) (hb : bc4Bounded b = true) :
    bc4Full (bc4Full b) = b := by
  simp only [bc4Bounded, Bool.and_eq_true, decide_eq_true_eq] at hb
  obtain ⟨⟨⟨⟨⟨h0, h1⟩, h2⟩, h3⟩, h4⟩, h5⟩ := hb
  ext <;> simp only [bc4Full] <;>
    first
      | rfl
      | (apply splice_splice <;> assumption)

/-- The height-2 BC5 transform is an involution on byte-valued blocks. -/
theorem bc5H2_invol (b : BC5Block) (hb : bc5Bounded b = true) :
    bc5H2 (bc5H2 b) = b := by
  simp only [bc5Bounded, Bool.and_eq_true, decide_eq_true_eq] at hb
  obtain ⟨⟨⟨⟨⟨⟨⟨⟨⟨⟨⟨h0, h1⟩, h2⟩, h3⟩, h4⟩, h5⟩, g0⟩, g1⟩, g2⟩, g3⟩, g4⟩, g5⟩ := hb
  ext <;> simp only [bc5H2] <;>
    first
      | rfl
      | (apply splice_splice <;> assumption)

/-- The full BC5 transform is an involution on byte-valued blocks. -/
theorem bc5Full_invol (b : BC5Block) (hb : bc5Bounded b = true) :
    bc5Full (bc5Full b) = b := by
  simp only [bc5Bounded, Bool.and_eq_true, decide_eq_true_eq] at hb
  obtain ⟨⟨⟨⟨⟨⟨⟨⟨⟨⟨⟨h0, h1⟩, h2⟩, h3⟩, h4⟩, h5⟩, g0⟩, g1⟩, g2⟩, g3⟩, g4⟩, g5⟩ := hb
  ext <;> simp only [bc5Full] <;>
    first
      | rfl
      | (apply splice_splice <;> assumption)

/-! ## C3 support: the row-level evaluations -/

/-- Mapping a pointwise involution twice is the identity. -/
theorem map_map_invol {α : Type} (f : α → α) :
    ∀ r : List α, (∀ b ∈ r, f (f b) = b) → (r.map f).map f = r := by
  intro r
  induction r with
  | nil => intro _; rfl
  | cons a t ih =>
    intro h
    simp only [List.map_cons]
    rw [h a (by simp), ih (fun b hb => h b (by simp [hb]))]

/-- `flipBCRows` at height 1: a no-op. -/
theorem flipBCRows_one {α : Type} (h2 full : α → α) (rows : List (List α)) :
    flipBCRows h2 full 1 rows = rows := rfl

/-- `flipBCRows` at height 2 on the single block row. -/
theorem flipBCRows_two {α : Type} (h2 full : α → α) (r : List α) :
    flipBCRows h2 full 2 [r] = [r.map h2] := rfl

/-- `flipBCRows` at height 3: one block row, the middle-row self case. -/
theorem flipBCRows_three {α : Type} (h2 full : α → α) (r : List α) :
    flipBCRows h2 full 3 [r] = [r.map full] := rfl

/-- `flipBCRows` at height 8: the two block rows exchange, transformed. -/
theorem flipBCRows_eight {α : Type} (h2 full : α → α) (r0 r1 : List α) :
    flipBCRows h2 full 8 [r0, r1] = [r1.map full, r0.map full] := rfl

/-- The common row-level involution: for the claim heights and a payload of
exactly `numYBlocks` block rows, flipping twice restores every row — given
that both block transforms are involutions on the blocks present. -/
theorem flipBCRows_invol {α : Type} (h2 full : α → α) (height : Nat)
    (rows : List (List α))
    (hh : height = 1 ∨ height = 2 ∨ height = 3 ∨ height = 8)
    (hlen : rows.length = (height + 3) / 4)
    (hinv2 : ∀ r ∈ rows, ∀ b ∈ r, h2 (h2 b) = b)
    (hinvf : ∀ r ∈ rows, ∀ b ∈ r, full (full b) = b) :
    flipBCRows h2 full height (flipBCRows h2 full height rows) = rows := by
  rcases hh with rfl | rfl | rfl | rfl
  · rw [flipBCRows_one, flipBCRows_one]
  · obtain ⟨r, rfl⟩ : ∃ r, rows = [r] := by
      cases rows with
      | nil => simp at hlen
      | cons a t =>
        cases t with
        | nil => exact ⟨a, rfl⟩
        | cons b t2 => simp at hlen
    rw [flipBCRows_two, flipBCRows_two,
      map_map_invol h2 r (hinv2 r (by simp))]
  · obtain ⟨r, rfl⟩ : ∃ r, rows = [r] := by
      cases rows with
      | nil => simp at hlen
      | cons a t =>
        cases t with
        | nil => exact ⟨a, rfl⟩
        | cons b t2 => simp at hlen
    rw [flipBCRows_three, flipBCRows_three,
      map_map_invol full r (hinvf r (by simp))]
  · obtain ⟨r0, r1, rfl⟩ : ∃ r0 r1, rows = [r0, r1] := by
      cases rows with
      | nil => simp at hlen
      | cons a t =>
        cases t with
        | nil => simp at hlen
        | cons b t2 =>
          cases t2 with
          | nil => exact ⟨a, b, rfl⟩
          | cons c t3 => simp at hlen
    rw [flipBCRows_eight, flipBCRows_eight,
      map_map_invol full r0 (hinvf r0 (by simp)),
      map_map_invol full r1 (hinvf r1 (by simp))]

/-- **C3.** For every image whose stored format is a supported BC1–BC5
variant, whose payload is the matching block layout with exactly the block
rows its dimensions dictate and byte-valued fields, and whose height is 1,
2, 3 or 8, applying the vertical compressed flip twice restores the payload
exactly (and both applications report success). -/
theorem c3_flip_involution (fmt : Nat) (img : CompressedImage)
    (hm : formatMatches fmt img = true)
    (hb : imageBounded img = true)
    (hwf : imageWellFormed img = true)
    (hh : imageHeight img = 1 ∨ imageHeight img = 2 ∨ imageHeight img = 3 ∨
      imageHeight img = 8) :
    FlipCompressedImage fmt (FlipCompressedImage fmt img).2 = (true, img) := by
  cases img with
  | bc1 w h rows =>
    simp only [formatMatches, decide_eq_true_eq] at hm
    have hl : rows.length = (h + 3) / 4 := by
      simpa [imageWellFormed] using hwf
    have hh1 : h = 1 ∨ h = 2 ∨ h = 3 ∨ h = 8 := by
      simpa [imageHeight] using hh
    rcases hm with rfl | rfl | rfl <;>
    · rw [FlipCompressedImage, if_pos (by decide)]
      rw [FlipCompressedImage, if_pos (by decide)]
      dsimp only
      rw [FlipCompressedImageBC1, FlipCompressedImageBC1]
      rw [flipBCRows_invol bc1H2 bc1Full h rows hh1 hl
        (fun r _ b _ => bc1H2_invol b) (fun r _ b _ => bc1Full_invol b)]
  | bc2 w h rows =>
    simp only [formatMatches, decide_eq_true_eq] at hm
    have hl : rows.length = (h + 3) / 4 := by
      simpa [imageWellFormed] using hwf
    have hh1 : h = 1 ∨ h = 2 ∨ h = 3 ∨ h = 8 := by
      simpa [imageHeight] using hh
    rcases hm with rfl | rfl | rfl <;>
    · rw [FlipCompressedImage, if_neg (by decide), if_pos (by decide)]
      rw [FlipCompressedImage, if_neg (by decide), if_pos (by decide)]
      dsimp only
      rw [FlipCompressedImageBC2, FlipCompressedImageBC2]
      rw [flipBCRows_invol bc2H2 bc2Full h rows hh1 hl
        (fun r _ b _ => bc2H2_invol b) (fun r _ b _ => bc2Full_invol b)]
  | bc3 w h rows =>
    simp only [formatMatches, decide_eq_true_eq] at hm
    have hl : rows.length = (h + 3) / 4 := by
      simpa [imageWellFormed] using hwf
    have hh1 : h = 1 ∨ h = 2 ∨ h = 3 ∨ h = 8 := by
      simpa [imageHeight] using hh
    have hbb : ∀ r ∈ rows, ∀ b ∈ r, bc3Bounded b = true := by
      simpa [imageBounded, List.all_eq_true] using hb
    rcases hm with rfl | rfl | rfl <;>
    · rw [FlipCompressedImage, if_neg (by decide), if_neg (by decide),
        if_pos (by decide)]
      rw [FlipCompressedImage, if_neg (by decide), if_neg (by decide),
        if_pos (by decide)]
      dsimp only
      rw [FlipCompressedImageBC3, FlipCompressedImageBC3]
      rw [flipBCRows_invol bc3H2 bc3Full h rows hh1 hl
        (fun r hr b hbr => bc3H2_invol b (hbb r hr b hbr))
        (fun r hr b hbr => bc3Full_invol b (hbb r hr b hbr))]
  | bc4 w h rows =>
    simp only [formatMatches, decide_eq_true_eq] at hm
    have hl : rows.length = (h + 3) / 4 := by
      simpa [imageWellFormed] using hwf
    have hh1 : h = 1 ∨ h = 2 ∨ h = 3 ∨ h = 8 := by
      simpa [imageHeight] using hh
    have hbb : ∀ r ∈ rows, ∀ b ∈ r, bc4Bounded b = true := by
      simpa [imageBounded, List.all_eq_true] using hb
    rcases hm with rfl | rfl | rfl <;>
    · rw [FlipCompressedImage, if_neg (by decide), if_neg (by decide),
        if_neg (by decide), if_pos (by decide)]
      rw [FlipCompressedImage, if_neg (by decide), if_neg (by decide),
        if_neg (by decide), if_pos (by decide)]
      dsimp only
      rw [FlipCompressedImageBC4, FlipCompressedImageBC4]
      rw [flipBCRows_invol bc4H2 bc4Full h rows hh1 hl
        (fun r hr b hbr => bc4H2_invol b (hbb r hr b hbr))
        (fun r hr b hbr => bc4Full_invol b (hbb r hr b hbr))]
  | bc5 w h rows =>
    simp only [formatMatches, decide_eq_true_eq] at hm
    have hl : rows.length = (h + 3) / 4 := by
      simpa [imageWellFormed] using hwf
    have hh1 : h = 1 ∨ h = 2 ∨ h = 3 ∨ h = 8 := by
      simpa [imageHeight] using hh
    have hbb : ∀ r ∈ rows, ∀ b ∈ r, bc5Bounded b = true := by
      simpa [imageBounded, List.all_eq_true] using hb
    rcases hm with rfl | rfl | rfl <;>
    · rw [FlipCompressedImage, if_neg (by decide), if_neg (by decide),
        if_neg (by decide), if_neg (by decide), if_pos (by decide)]
      rw [FlipCompressedImage, if_neg (by decide), if_neg (by decide),
        if_neg (by decide), if_neg (by decide), if_pos (by decide)]
      dsimp only
      rw [FlipCompressedImageBC5, FlipCompressedImageBC5]
      rw [flipBCRows_invol bc5H2 bc5Full h rows hh1 hl
        (fun r hr b hbr => bc5H2_invol b (hbb r hr b hbr))
        (fun r hr b hbr => bc5Full_invol b (hbb r hr b hbr))]
  | raw h lines => simp [formatMatches] at hm

/-- Witness for C3 at the concrete 8-high BC3 image `c3Img`. -/
theorem c3_flip_involution_witness :
    FlipCompressedImage BC3_UNorm
      (FlipCompressedImage BC3_UNorm c3Img).2 = (true, c3Img) :=
  c3_flip_involution BC3_UNorm c3Img (by decide) (by decide) (by decide)
    (by decide)

/-! ## C9: unsupported compressions -/

set_option maxRecDepth 100000

/-- The fourCC dispatch of `FlipCompressedImage` for a format outside every
BC1–BC5 family: fail, payload untouched. -/
theorem FlipCompressedImage_unsupported (fmt : Nat) (img : CompressedImage)
    (h1 : ¬(fmt = BC1_Typeless ∨ fmt = BC1_UNorm ∨ fmt = BC1_UNorm_SRGB))
    (h2 : ¬(fmt = BC2_Typeless ∨ fmt = BC2_UNorm ∨ fmt = BC2_UNorm_SRGB))
    (h3 : ¬(fmt = BC3_Typeless ∨ fmt = BC3_UNorm ∨ fmt = BC3_UNorm_SRGB))
    (h4 : ¬(fmt = BC4_Typeless ∨ fmt = BC4_UNorm ∨ fmt = BC4_SNorm))
    (h5 : ¬(fmt = BC5_Typeless ∨ fmt = BC5_UNorm ∨ fmt = BC5_SNorm)) :
    FlipCompressedImage fmt img = (false, img) := by
  rw [FlipCompressedImage, if_neg h1, if_neg h2, if_neg h3, if_neg h4,
    if_neg h5]

/-- **C9.** A file whose format is a BC6H or BC7 variant takes the
compressed arm of `Flip`, whose very first image fails the BC1–BC5 dispatch:
the flip returns `false` with every image — the first and the untouched
rest — exactly as it was.  An ASTC format value can belong to no loaded
file at all: `tinyddsloader`'s `DXGIFormat` enum ends below the ASTC range,
so `GetBitsPerPixel` is 0 there and `VerifyHeader`'s format check refuses
the file before any image exists. -/
theorem c9_unsupported_flip (fmt : Nat) :
    (∀ imgs : List CompressedImage, imgs ≠ [] →
      (fmt = BC6H_Typeless ∨ fmt = BC6H_UF16 ∨ fmt = BC6H_SF16 ∨
       fmt = BC7_Typeless ∨ fmt = BC7_UNorm ∨ fmt = BC7_UNorm_SRGB) →
      Flip fmt imgs = (false, imgs)) ∧
    (ASTC_4X4_Typeless ≤ fmt → fmt ≤ ASTC_12X12_UNorm_SRGB →
      tinyFormatCheck fmt = false) := by
  constructor
  · intro imgs hne hf
    cases imgs with
    | nil => exact absurd rfl hne
    | cons i rest =>
      rcases hf with rfl | rfl | rfl | rfl | rfl | rfl <;>
      · rw [Flip, if_pos (by decide)]
        rw [FlipLoopCompressed]
        dsimp only
        rw [FlipCompressedImage_unsupported _ i (by decide) (by decide)
          (by decide) (by decide) (by decide)]
        simp
  · intro h1 h2
    have h1L : 133 ≤ fmt := by
      simpa [ASTC_4X4_Typeless] using h1
    have h2L : fmt < 188 := by
      have := h2
      simp only [ASTC_12X12_UNorm_SRGB] at this
      omega
    have hall : ∀ f : Nat, f < 188 → 133 ≤ f → tinyFormatCheck f = false := by
      decide
    exact hall fmt h2L h1L

/-- Witness for C9: a BC7 file with one raw-payload image, and the
`ASTC_8X8_UNorm` format value. -/
theorem c9_unsupported_flip_witness :
    Flip BC7_UNorm [CompressedImage.raw 1 [[0]]] =
      (false, [CompressedImage.raw 1 [[0]]]) ∧
    tinyFormatCheck ASTC_8X8_UNorm = false :=
  ⟨(c9_unsupported_flip BC7_UNorm).1 [CompressedImage.raw 1 [[0]]]
      (by decide) (by decide),
   (c9_unsupported_flip ASTC_8X8_UNorm).2 (by decide) (by decide)⟩

end Tinydds


